import Mathlib

/-!
# Water-tank level control (pico_rtos): shallow embedding

Embedding of `mylib/meas/meas.c`, `mylib/ctrl/ctrl.c` and `mylib/uart/uart.c`.

* A C `float` is a `CFloat`: a NaN, an infinity or a finite value carried as a rational.
  The control code only compares a height with the compile-time thresholds, and a
  comparison of a `float` with a `double` constant is exact.
* The global `SemaphoreHandle_t` variables are the names of `Sem`; `World.sem` gives the
  value of each handle: `NULL`, a live binary semaphore with or without its token, or a
  handle whose semaphore was removed by `vSemaphoreDelete` (the variable is not reset).
* Every RTOS / GPIO call appends an `Event` to `World.log`, oldest first.
* The pressure, averaging and height arithmetic of the sampling cycle is read over the
  rationals (exact arithmetic).
* One iteration of a task's `while (1)` loop is one function on the state.
-/

namespace TankCtrl

/-! ## C floats and their comparisons -/

/-- A value of C type `float`. -/
inductive CFloat where
  | nan
  | negInf
  | fin (q : ℚ)
  | posInf
  deriving DecidableEq

/-- The C comparison `a <= b`; false as soon as one side is a NaN. -/
def CFloat.le : CFloat → CFloat → Bool
  | .nan, _ => false
  | _, .nan => false
  | .negInf, _ => true
  | _, .posInf => true
  | .fin a, .fin b => decide (a ≤ b)
  | .fin _, .negInf => false
  | .posInf, .fin _ => false
  | .posInf, .negInf => false

/-- The C comparison `a >= b`. -/
def CFloat.ge (a b : CFloat) : Bool := CFloat.le b a

/-! ## Constants of `meas.h` and `ctrl.h` -/

def TANK_1 : Nat := 1
def TANK_2 : Nat := 2

def TANK_1_MAX_FILL_LEVEL : CFloat := .fin 60
def TANK_2_MAX_FILL_LEVEL : CFloat := .fin 60
def TANK_1_MIN_FILL_LEVEL : CFloat := .fin 10
def TANK_2_MIN_FILL_LEVEL : CFloat := .fin 10
def TANK_1_FILL_TO_LEVEL : CFloat := .fin 20
def TANK_2_FILL_TO_LEVEL : CFloat := .fin 20
def TANK_1_DRAIN_TO_LEVEL : CFloat := .fin 50
def TANK_2_DRAIN_TO_LEVEL : CFloat := .fin 50

def GPIO2 : Nat := 2
def GPIO14 : Nat := 14
def GPIO15 : Nat := 15
def GPIO16 : Nat := 16
def GPIO17 : Nat := 17

/-! ## Semaphores, pins and the event log -/

/-- The global semaphore handle variables of `ctrl.c` and `uart.c`. -/
inductive Sem where
  | ctrl_enable_sem
  | delete_t1_ctrl_sem
  | delete_t2_ctrl_sem
  | fill_t1_sem
  | fill_t2_sem
  | stop_fill_t1_sem
  | stop_fill_t2_sem
  | drain_t1_sem
  | drain_t2_sem
  | stop_drain_t1_sem
  | stop_drain_t2_sem
  | ctrl_on_sem_1
  | ctrl_off_sem_1
  | ctrl_on_sem_2
  | ctrl_off_sem_2
  | request_tank_1_height_sem
  | request_tank_2_height_sem
  deriving DecidableEq, Repr

/-- The value of a `SemaphoreHandle_t` variable. `NULL` is the zero-initialised global,
`live tok` a binary semaphore (`tok` = its token is available), `freed` a handle whose
semaphore has been passed to `vSemaphoreDelete`. -/
inductive SemaphoreHandle_t where
  | NULL
  | live (tok : Bool)
  | freed
  deriving DecidableEq, Repr

/-- The task functions handed to `xTaskCreate` by the control driver. -/
inductive TaskFn where
  | t1_level_ctrl_task
  | t2_level_ctrl_task
  deriving DecidableEq, Repr

/-- One RTOS or GPIO call, as recorded in the log. -/
inductive Event where
  | give (s : Sem)
  | take (s : Sem) (ok : Bool)
  | create (s : Sem)
  | delete (s : Sem)
  | gpio_put (pin : Nat) (v : Bool)
  | xTaskCreate (f : TaskFn)
  | vTaskDelete
  deriving DecidableEq, Repr

/-- Global state shared by the tasks: the handle variables, the output pin levels and the
log of calls made so far (oldest first). -/
structure World where
  sem : Sem → SemaphoreHandle_t
  gpio : Nat → Bool
  log : List Event

/-- State before any task has run: every handle `NULL`, every pin low, nothing logged. -/
def World.boot : World := ⟨fun _ => .NULL, fun _ => false, []⟩

/-- Modelled from the spec: `xSemaphoreCreateBinary()` assigned to the handle `s` makes a
new single-slot channel, empty. -/
def xSemaphoreCreateBinary (w : World) (s : Sem) : World :=
  { w with sem := Function.update w.sem s (.live false), log := w.log ++ [.create s] }

/-- Modelled from the spec: `xSemaphoreGive(s)` is `send`, it marks the single slot
occupied; a live semaphore holds its token afterwards (a second give while the token is
there changes nothing). -/
def xSemaphoreGive (w : World) (s : Sem) : World :=
  { w with
    sem := match w.sem s with
      | .live _ => Function.update w.sem s (.live true)
      | _ => w.sem
    log := w.log ++ [.give s] }

/-- Modelled from the spec: `xSemaphoreTake(s, timeout) == pdTRUE` is `try_recv`, it
succeeds exactly when the token is there, and removes it. A token given while the call waits is one that is there for this purpose: the
steps of other tasks are placed before or after the call. -/
def xSemaphoreTake (w : World) (s : Sem) : Bool × World :=
  match w.sem s with
  | .live true =>
      (true, { w with sem := Function.update w.sem s (.live false),
                      log := w.log ++ [.take s true] })
  | _ => (false, { w with log := w.log ++ [.take s false] })

/-- `vSemaphoreDelete(s)`: the semaphore is gone, the handle variable keeps its value. -/
def vSemaphoreDelete (w : World) (s : Sem) : World :=
  { w with
    sem := match w.sem s with
      | .NULL => w.sem
      | _ => Function.update w.sem s .freed
    log := w.log ++ [.delete s] }

/-- `gpio_put(pin, v)`. -/
def gpio_put (w : World) (pin : Nat) (v : Bool) : World :=
  { w with gpio := Function.update w.gpio pin v, log := w.log ++ [.gpio_put pin v] }

/-! ## meas.c -/

/-- `check_ctrl_requirements(&filling, &draining, height, tank)`; returns the world and
the new values of `*filling` and `*draining`. -/
def check_ctrl_requirements (w : World) (filling draining : Bool) (height : CFloat)
    (tank : Nat) : World × Bool × Bool :=
  let (w, filling) :=
    if filling then
      if tank = TANK_1 then
        if height.ge TANK_1_FILL_TO_LEVEL then
          ((if w.sem .stop_fill_t1_sem ≠ .NULL then xSemaphoreGive w .stop_fill_t1_sem else w),
            false)
        else (w, filling)
      else if tank = TANK_2 then
        if height.ge TANK_2_FILL_TO_LEVEL then
          ((if w.sem .stop_fill_t2_sem ≠ .NULL then xSemaphoreGive w .stop_fill_t2_sem else w),
            false)
        else (w, filling)
      else (w, filling)
    else
      if tank = TANK_1 then
        if height.le TANK_1_MIN_FILL_LEVEL then
          ((if w.sem .fill_t1_sem ≠ .NULL then xSemaphoreGive w .fill_t1_sem else w), true)
        else (w, filling)
      else if tank = TANK_2 then
        if height.le TANK_2_MIN_FILL_LEVEL then
          ((if w.sem .fill_t2_sem ≠ .NULL then xSemaphoreGive w .fill_t2_sem else w), true)
        else (w, filling)
      else (w, filling)
  let (w, draining) :=
    if draining then
      if tank = TANK_1 then
        if height.le TANK_1_DRAIN_TO_LEVEL then
          ((if w.sem .stop_drain_t1_sem ≠ .NULL then xSemaphoreGive w .stop_drain_t1_sem
            else w), false)
        else (w, draining)
      else if tank = TANK_2 then
        if height.le TANK_2_DRAIN_TO_LEVEL then
          ((if w.sem .stop_drain_t2_sem ≠ .NULL then xSemaphoreGive w .stop_drain_t2_sem
            else w), false)
        else (w, draining)
      else (w, draining)
    else
      if tank = TANK_1 then
        if height.ge TANK_1_MAX_FILL_LEVEL then
          ((if w.sem .drain_t1_sem ≠ .NULL then xSemaphoreGive w .drain_t1_sem else w), true)
        else (w, draining)
      else if tank = TANK_2 then
        if height.ge TANK_2_MAX_FILL_LEVEL then
          ((if w.sem .drain_t2_sem ≠ .NULL then xSemaphoreGive w .drain_t2_sem else w), true)
        else (w, draining)
      else (w, draining)
  (w, filling, draining)

/-- The locals `filling`, `draining`, `ctrl_on` of a measurement task. -/
structure MeasLocals where
  filling : Bool
  draining : Bool
  ctrl_on : Bool
  deriving DecidableEq, Repr

/-- Values of the locals when a measurement task starts. -/
def MeasLocals.init : MeasLocals := ⟨false, false, false⟩

/-- Control part of one sampling cycle of `t1_meas_task` (from the `ctrl_on_sem_1` check to
the end of the `if (ctrl_on)` statement), for the `height` computed earlier in the cycle.
The earlier part of the cycle assigns none of `filling`, `draining`, `ctrl_on`. -/
def t1_meas_task_cycle (w : World) (l : MeasLocals) (height : CFloat) : World × MeasLocals :=
  let (w, ctrl_on) :=
    if w.sem .ctrl_on_sem_1 ≠ .NULL then
      let (ok, w) := xSemaphoreTake w .ctrl_on_sem_1
      if ok then (w, true) else (w, l.ctrl_on)
    else (w, l.ctrl_on)
  let (w, ctrl_on) :=
    if w.sem .ctrl_off_sem_1 ≠ .NULL then
      let (ok, w) := xSemaphoreTake w .ctrl_off_sem_1
      if ok then (w, false) else (w, ctrl_on)
    else (w, ctrl_on)
  if ctrl_on then
    let (w, filling, draining) := check_ctrl_requirements w l.filling l.draining height TANK_1
    (w, ⟨filling, draining, ctrl_on⟩)
  else
    (w, ⟨false, false, ctrl_on⟩)

/-- Control part of one sampling cycle of `t2_meas_task`. -/
def t2_meas_task_cycle (w : World) (l : MeasLocals) (height : CFloat) : World × MeasLocals :=
  let (w, ctrl_on) :=
    if w.sem .ctrl_on_sem_2 ≠ .NULL then
      let (ok, w) := xSemaphoreTake w .ctrl_on_sem_2
      if ok then (w, true) else (w, l.ctrl_on)
    else (w, l.ctrl_on)
  let (w, ctrl_on) :=
    if w.sem .ctrl_off_sem_2 ≠ .NULL then
      let (ok, w) := xSemaphoreTake w .ctrl_off_sem_2
      if ok then (w, false) else (w, ctrl_on)
    else (w, ctrl_on)
  if ctrl_on then
    let (w, filling, draining) := check_ctrl_requirements w l.filling l.draining height TANK_2
    (w, ⟨filling, draining, ctrl_on⟩)
  else
    (w, ⟨false, false, ctrl_on⟩)

/-! ## ctrl.c -/

/-- `gpio2_cb`: the edge interrupt posts to `ctrl_enable_sem` when the handle is set. -/
def gpio2_cb (w : World) : World :=
  if w.sem .ctrl_enable_sem ≠ .NULL then xSemaphoreGive w .ctrl_enable_sem else w

/-- `t1_valve_pins_init`: both tank 1 valve pins are driven low. -/
def t1_valve_pins_init (w : World) : World :=
  let w := gpio_put w GPIO14 false
  gpio_put w GPIO15 false

/-- `t2_valve_pins_init`: both tank 2 valve pins are driven low. -/
def t2_valve_pins_init (w : World) : World :=
  let w := gpio_put w GPIO16 false
  gpio_put w GPIO17 false

/-- `init_t1_semaphores`. -/
def init_t1_semaphores (w : World) : World :=
  let w := xSemaphoreCreateBinary w .delete_t1_ctrl_sem
  let w := xSemaphoreCreateBinary w .fill_t1_sem
  let w := xSemaphoreCreateBinary w .stop_fill_t1_sem
  let w := xSemaphoreCreateBinary w .drain_t1_sem
  xSemaphoreCreateBinary w .stop_drain_t1_sem

/-- `init_t2_semaphores`. -/
def init_t2_semaphores (w : World) : World :=
  let w := xSemaphoreCreateBinary w .delete_t2_ctrl_sem
  let w := xSemaphoreCreateBinary w .fill_t2_sem
  let w := xSemaphoreCreateBinary w .stop_fill_t2_sem
  let w := xSemaphoreCreateBinary w .drain_t2_sem
  xSemaphoreCreateBinary w .stop_drain_t2_sem

/-- `handle_t1_ctrl_pins(filling, draining, deinit)`. -/
def handle_t1_ctrl_pins (w : World) (filling draining deinit : Bool) : World :=
  if !deinit then
    let w := gpio_put w GPIO14 filling
    gpio_put w GPIO15 draining
  else
    let w := gpio_put w GPIO14 false
    gpio_put w GPIO15 false

/-- `handle_t2_ctrl_pins(filling, draining, deinit)`. -/
def handle_t2_ctrl_pins (w : World) (filling draining deinit : Bool) : World :=
  if !deinit then
    let w := gpio_put w GPIO16 filling
    gpio_put w GPIO17 draining
  else
    let w := gpio_put w GPIO16 false
    gpio_put w GPIO17 false

/-- `deinit_t1_level_ctrl_task`: the five semaphores are deleted, then the valves closed. -/
def deinit_t1_level_ctrl_task (w : World) : World :=
  let w := vSemaphoreDelete w .delete_t1_ctrl_sem
  let w := vSemaphoreDelete w .fill_t1_sem
  let w := vSemaphoreDelete w .stop_fill_t1_sem
  let w := vSemaphoreDelete w .drain_t1_sem
  let w := vSemaphoreDelete w .stop_drain_t1_sem
  handle_t1_ctrl_pins w false false true

/-- `deinit_t2_level_ctrl_task`. -/
def deinit_t2_level_ctrl_task (w : World) : World :=
  let w := vSemaphoreDelete w .delete_t2_ctrl_sem
  let w := vSemaphoreDelete w .fill_t2_sem
  let w := vSemaphoreDelete w .stop_fill_t2_sem
  let w := vSemaphoreDelete w .drain_t2_sem
  let w := vSemaphoreDelete w .stop_drain_t2_sem
  handle_t2_ctrl_pins w false false true

/-- `vTaskDelete(NULL)`: the calling task is removed and never runs again. -/
def vTaskDelete (w : World) : World :=
  { w with log := w.log ++ [.vTaskDelete] }

/-- A level control task: its locals `filling`, `draining`, and whether it has deleted
itself. -/
structure CtrlTask where
  filling : Bool
  draining : Bool
  deleted : Bool
  deriving DecidableEq, Repr

/-- Start of `t1_level_ctrl_task`, up to the `while (1)`. -/
def t1_level_ctrl_task_start (w : World) : World × CtrlTask :=
  (init_t1_semaphores (t1_valve_pins_init w), ⟨false, false, false⟩)

/-- Start of `t2_level_ctrl_task`, up to the `while (1)`. -/
def t2_level_ctrl_task_start (w : World) : World × CtrlTask :=
  (init_t2_semaphores (t2_valve_pins_init w), ⟨false, false, false⟩)

/-- One pass of the `while (1)` body of `t1_level_ctrl_task`. A task that has deleted
itself does nothing. -/
def t1_level_ctrl_task_cycle (w : World) (t : CtrlTask) : World × CtrlTask :=
  if t.deleted then (w, t) else
  let (w, filling) :=
    if t.filling then
      if w.sem .stop_fill_t1_sem ≠ .NULL then
        let (ok, w) := xSemaphoreTake w .stop_fill_t1_sem
        if ok then (handle_t1_ctrl_pins w false t.draining false, false) else (w, t.filling)
      else (w, t.filling)
    else
      if w.sem .fill_t1_sem ≠ .NULL then
        let (ok, w) := xSemaphoreTake w .fill_t1_sem
        if ok then (handle_t1_ctrl_pins w true t.draining false, true) else (w, t.filling)
      else (w, t.filling)
  let (w, draining) :=
    if t.draining then
      if w.sem .stop_drain_t1_sem ≠ .NULL then
        let (ok, w) := xSemaphoreTake w .stop_drain_t1_sem
        if ok then (handle_t1_ctrl_pins w filling false false, false) else (w, t.draining)
      else (w, t.draining)
    else
      if w.sem .drain_t1_sem ≠ .NULL then
        let (ok, w) := xSemaphoreTake w .drain_t1_sem
        if ok then (handle_t1_ctrl_pins w filling true false, true) else (w, t.draining)
      else (w, t.draining)
  if w.sem .delete_t1_ctrl_sem ≠ .NULL then
    let (ok, w) := xSemaphoreTake w .delete_t1_ctrl_sem
    if ok then (vTaskDelete (deinit_t1_level_ctrl_task w), ⟨filling, draining, true⟩)
    else (w, ⟨filling, draining, false⟩)
  else (w, ⟨filling, draining, false⟩)

/-- One pass of the `while (1)` body of `t2_level_ctrl_task`. -/
def t2_level_ctrl_task_cycle (w : World) (t : CtrlTask) : World × CtrlTask :=
  if t.deleted then (w, t) else
  let (w, filling) :=
    if t.filling then
      if w.sem .stop_fill_t2_sem ≠ .NULL then
        let (ok, w) := xSemaphoreTake w .stop_fill_t2_sem
        if ok then (handle_t2_ctrl_pins w false t.draining false, false) else (w, t.filling)
      else (w, t.filling)
    else
      if w.sem .fill_t2_sem ≠ .NULL then
        let (ok, w) := xSemaphoreTake w .fill_t2_sem
        if ok then (handle_t2_ctrl_pins w true t.draining false, true) else (w, t.filling)
      else (w, t.filling)
  let (w, draining) :=
    if t.draining then
      if w.sem .stop_drain_t2_sem ≠ .NULL then
        let (ok, w) := xSemaphoreTake w .stop_drain_t2_sem
        if ok then (handle_t2_ctrl_pins w filling false false, false) else (w, t.draining)
      else (w, t.draining)
    else
      if w.sem .drain_t2_sem ≠ .NULL then
        let (ok, w) := xSemaphoreTake w .drain_t2_sem
        if ok then (handle_t2_ctrl_pins w filling true false, true) else (w, t.draining)
      else (w, t.draining)
  if w.sem .delete_t2_ctrl_sem ≠ .NULL then
    let (ok, w) := xSemaphoreTake w .delete_t2_ctrl_sem
    if ok then (vTaskDelete (deinit_t2_level_ctrl_task w), ⟨filling, draining, true⟩)
    else (w, ⟨filling, draining, false⟩)
  else (w, ⟨filling, draining, false⟩)

/-- `t1_level_ctrl_task_init`: the call of `xTaskCreate` for `t1_level_ctrl_task`. The new
task runs `t1_level_ctrl_task_start` when it is first scheduled. -/
def t1_level_ctrl_task_init (w : World) : World :=
  { w with log := w.log ++ [.xTaskCreate .t1_level_ctrl_task] }

/-- `t2_level_ctrl_task_init`. -/
def t2_level_ctrl_task_init (w : World) : World :=
  { w with log := w.log ++ [.xTaskCreate .t2_level_ctrl_task] }

/-- Start of `level_ctrl_enable_task`, up to the `while (1)`: its five semaphores. -/
def level_ctrl_enable_task_start (w : World) : World :=
  let w := xSemaphoreCreateBinary w .ctrl_enable_sem
  let w := xSemaphoreCreateBinary w .ctrl_on_sem_1
  let w := xSemaphoreCreateBinary w .ctrl_on_sem_2
  let w := xSemaphoreCreateBinary w .ctrl_off_sem_1
  xSemaphoreCreateBinary w .ctrl_off_sem_2

/-- What `level_ctrl_enable_task` does once `xSemaphoreTake(ctrl_enable_sem, portMAX_DELAY)`
has returned `pdTRUE`; `gpio2` is the value of `gpio_get(GPIO2)`. -/
def level_ctrl_enable_task_handle (w : World) (gpio2 : Bool) : World :=
  if !gpio2 then
    let w := if w.sem .delete_t1_ctrl_sem ≠ .NULL then xSemaphoreGive w .delete_t1_ctrl_sem
             else w
    let w := if w.sem .delete_t2_ctrl_sem ≠ .NULL then xSemaphoreGive w .delete_t2_ctrl_sem
             else w
    let w := xSemaphoreGive w .ctrl_off_sem_1
    xSemaphoreGive w .ctrl_off_sem_2
  else
    let w := t1_level_ctrl_task_init w
    let w := t2_level_ctrl_task_init w
    let w := xSemaphoreGive w .ctrl_on_sem_1
    xSemaphoreGive w .ctrl_on_sem_2

/-- One pass of the `while (1)` body of `level_ctrl_enable_task`. With no edge notification
pending the task stays blocked in the take (nothing happens). -/
def level_ctrl_enable_task_cycle (w : World) (gpio2 : Bool) : World :=
  if w.sem .ctrl_enable_sem ≠ .NULL then
    match w.sem .ctrl_enable_sem with
    | .live true => level_ctrl_enable_task_handle (xSemaphoreTake w .ctrl_enable_sem).2 gpio2
    | _ => w
  else w

/-! ## meas.c: pressure, smoothing window and height (exact arithmetic)

The `float` / `double` expressions of the sampling cycle are read over the rationals, so the
results below are those of exact arithmetic; rounding is not modelled. -/

def VREF : ℚ := 3.0
def RES_LEVELS : ℚ := 4095
def AVG_WINDOW_WIDTH : Nat := 20
def AVG_WINDOW_WIDTH_FLOAT : ℚ := 20.0
def TANK_1_USABLE_HEIGHT_OFFSET : ℚ := 4.0
def TANK_2_USABLE_HEIGHT_OFFSET : ℚ := 2.0
def TANK_1_ZERO_PRESSURE_OFFSET : ℚ := 140.183
def TANK_2_ZERO_PRESSURE_OFFSET : ℚ := 221.583

/-- The voltage at the sensor output recovered from the raw reading of the pressure channel
(`corrected_pressure_channel`, then `sensor_voltage`, in `calc_pressure`). -/
def sensor_voltage (pressure_channel_raw : Nat) : ℚ :=
  let corrected_pressure_channel : ℚ := (pressure_channel_raw : ℚ) * (VREF / RES_LEVELS)
  (500.0 * corrected_pressure_channel) / 280.0

/-- The transfer function of the sensor as written in `calc_pressure` (`inst_pressure`). -/
def inst_pressure (sensor_voltage : ℚ) : ℚ :=
  ((20000.0 / 9.0) * sensor_voltage) - (4000.0 / 9.0)

/-- `calc_pressure(pressure_channel_raw, offset_channel_raw)` in exact arithmetic; the two
arguments are `uint16_t` values. The second argument is not used by the code. -/
def calc_pressure (pressure_channel_raw _offset_channel_raw : Nat) : ℚ :=
  inst_pressure (sensor_voltage pressure_channel_raw)

/-- The locals `avg_window` and `avg_window_index` of a measurement task. -/
structure MeasWindow where
  avg_window : Fin 20 → ℚ
  avg_window_index : Nat

/-- `float avg_window[AVG_WINDOW_WIDTH] = {0.0}; uint8_t avg_window_index = 0;` -/
def MeasWindow.init : MeasWindow := ⟨fun _ => 0, 0⟩

/-- The smoothing part of one sampling cycle of `t1_meas_task` and of `t2_meas_task` (the
same statements in both): the new pressure is stored at the cursor, the cursor is advanced
and reset when it reaches the width, and the 20 slots are summed and divided by 20. A cursor
outside the array makes the store undefined: `none`. -/
def window_sample (s : MeasWindow) (inst_pressure : ℚ) : Option (MeasWindow × ℚ) :=
  if h : s.avg_window_index < 20 then
    let avg_window := Function.update s.avg_window ⟨s.avg_window_index, h⟩ inst_pressure
    let avg_window_index := (s.avg_window_index + 1) % 256
    let avg_window_index := if avg_window_index ≥ AVG_WINDOW_WIDTH then 0 else avg_window_index
    let avg_pressure : ℚ :=
      (List.finRange 20).foldl (fun avg_pressure i => avg_pressure + avg_window i) 0
    let avg_pressure := avg_pressure / AVG_WINDOW_WIDTH_FLOAT
    some (⟨avg_window, avg_window_index⟩, avg_pressure)
  else none

/-- Consecutive sampling cycles, one per pressure value: the final window and the average
computed in each cycle. -/
def window_samples : MeasWindow → List ℚ → Option (MeasWindow × List ℚ)
  | s, [] => some (s, [])
  | s, p :: ps =>
    match window_sample s p with
    | none => none
    | some (s1, avg) =>
      match window_samples s1 ps with
      | none => none
      | some (s2, avgs) => some (s2, avg :: avgs)

/-- The height computed by `t1_meas_task` from the averaged pressure, clamp included. -/
def t1_height (avg_pressure : ℚ) : ℚ :=
  let height : ℚ := (0.0124 * (avg_pressure - TANK_1_ZERO_PRESSURE_OFFSET)) + 1.656
  if height < TANK_1_USABLE_HEIGHT_OFFSET then 0.0 else height

/-- The height computed by `t2_meas_task` from the averaged pressure, clamp included. -/
def t2_height (avg_pressure : ℚ) : ℚ :=
  let height : ℚ := (0.0124 * (avg_pressure - TANK_2_ZERO_PRESSURE_OFFSET)) + 1.656
  if height < TANK_2_USABLE_HEIGHT_OFFSET then 0.0 else height

/-- The measuring part of one sampling cycle of `t1_meas_task`: from the two raw readings to
the height handed to the control part. -/
def t1_meas_task_sample (s : MeasWindow) (pressure_channel_1_raw offset_channel_raw : Nat) :
    Option (MeasWindow × ℚ) :=
  (window_sample s (calc_pressure pressure_channel_1_raw offset_channel_raw)).map
    (fun r => (r.1, t1_height r.2))

/-- The measuring part of one sampling cycle of `t2_meas_task`. -/
def t2_meas_task_sample (s : MeasWindow) (pressure_channel_2_raw offset_channel_raw : Nat) :
    Option (MeasWindow × ℚ) :=
  (window_sample s (calc_pressure pressure_channel_2_raw offset_channel_raw)).map
    (fun r => (r.1, t2_height r.2))

/-! ## uart.c -/

/-- `struct packet` of `uart.h`. -/
structure packet where
  tank : Nat
  height : CFloat

/-- The locals `tank_1_height` and `tank_2_height` of `uart_task`. -/
structure UartLocals where
  tank_1_height : CFloat
  tank_2_height : CFloat

/-- `float tank_1_height = 0.0, tank_2_height = 0.0;` -/
def UartLocals.init : UartLocals := ⟨.fin 0, .fin 0⟩

/-- What the statement `if (readings_queue != NULL) { if (xQueueReceive(...)) ... }` of
`uart_task` meets: a `NULL` queue handle (no call), a receive that returns `pdFALSE` after
its timeout, or a receive that returns `pdTRUE` with the packet copied out. -/
inductive QueueRecv where
  | null
  | timeout
  | received (reading_packet : packet)

/-- The text written by `sprintf(uart_str, "T1=%.1fT2=%.1f!", tank_1_height,
tank_2_height)`, with `fmt` the conversion `%.1f`. -/
def uart_str (fmt : CFloat → String) (tank_1_height tank_2_height : CFloat) : String :=
  "T1=" ++ fmt tank_1_height ++ "T2=" ++ fmt tank_2_height ++ "!"

/-- One pass of the `while (1)` body of `uart_task`: `buffer` is the byte read from the
UART, `rx1` and `rx2` what the two queue statements meet. The result holds the new locals
and the string handed to `uart_puts`, if any. -/
def uart_task_cycle (fmt : CFloat → String) (w : World) (l : UartLocals) (buffer : Nat)
    (rx1 rx2 : QueueRecv) : World × UartLocals × Option String :=
  if buffer = 'R'.toNat then
    let w :=
      if w.sem .request_tank_1_height_sem ≠ .NULL then
        xSemaphoreGive w .request_tank_1_height_sem
      else w
    let w :=
      if w.sem .request_tank_2_height_sem ≠ .NULL then
        xSemaphoreGive w .request_tank_2_height_sem
      else w
    let tank_1_height :=
      match rx1 with
      | .received reading_packet => reading_packet.height
      | _ => l.tank_1_height
    let tank_2_height :=
      match rx2 with
      | .received reading_packet => reading_packet.height
      | _ => l.tank_2_height
    (w, ⟨tank_1_height, tank_2_height⟩, some (uart_str fmt tank_1_height tank_2_height))
  else (w, l, none)

/-! ## Vocabulary of the specification -/

/-- The two tanks. -/
inductive TankId where
  | Tank1
  | Tank2
  deriving DecidableEq, Repr

/-- The `tank` argument passed for a tank. -/
def TankId.num : TankId → Nat
  | .Tank1 => TANK_1
  | .Tank2 => TANK_2

def TankId.fill_sem : TankId → Sem
  | .Tank1 => .fill_t1_sem
  | .Tank2 => .fill_t2_sem

def TankId.stop_fill_sem : TankId → Sem
  | .Tank1 => .stop_fill_t1_sem
  | .Tank2 => .stop_fill_t2_sem

def TankId.drain_sem : TankId → Sem
  | .Tank1 => .drain_t1_sem
  | .Tank2 => .drain_t2_sem

def TankId.stop_drain_sem : TankId → Sem
  | .Tank1 => .stop_drain_t1_sem
  | .Tank2 => .stop_drain_t2_sem

def TankId.delete_sem : TankId → Sem
  | .Tank1 => .delete_t1_ctrl_sem
  | .Tank2 => .delete_t2_ctrl_sem

def TankId.ctrl_on_sem : TankId → Sem
  | .Tank1 => .ctrl_on_sem_1
  | .Tank2 => .ctrl_on_sem_2

def TankId.ctrl_off_sem : TankId → Sem
  | .Tank1 => .ctrl_off_sem_1
  | .Tank2 => .ctrl_off_sem_2

/-- The pin of a tank's fill valve. -/
def TankId.fill_pin : TankId → Nat
  | .Tank1 => GPIO14
  | .Tank2 => GPIO16

/-- The pin of a tank's drain valve. -/
def TankId.drain_pin : TankId → Nat
  | .Tank1 => GPIO15
  | .Tank2 => GPIO17

/-- The measurement cycle of a tank. -/
def meas_task_cycle : TankId → World → MeasLocals → CFloat → World × MeasLocals
  | .Tank1 => t1_meas_task_cycle
  | .Tank2 => t2_meas_task_cycle

/-- The start of a tank's level control task. -/
def level_ctrl_task_start : TankId → World → World × CtrlTask
  | .Tank1 => t1_level_ctrl_task_start
  | .Tank2 => t2_level_ctrl_task_start

/-- The poll pass of a tank's level control task. -/
def level_ctrl_task_cycle : TankId → World → CtrlTask → World × CtrlTask
  | .Tank1 => t1_level_ctrl_task_cycle
  | .Tank2 => t2_level_ctrl_task_cycle

/-- The valve commands of the specification. -/
inductive ValveCommand where
  | Fill
  | StopFill
  | Drain
  | StopDrain
  deriving DecidableEq, Repr

/-- The valve command a logged call raises for `tank`: a give on one of its four command
semaphores. -/
def Event.command (tank : TankId) : Event → Option ValveCommand
  | .give s =>
      if s = tank.fill_sem then some .Fill
      else if s = tank.stop_fill_sem then some .StopFill
      else if s = tank.drain_sem then some .Drain
      else if s = tank.stop_drain_sem then some .StopDrain
      else none
  | _ => none

/-- The events logged between `w` and a later state `w1`. -/
def newEvents (w w1 : World) : List Event := w1.log.drop w.log.length

/-- The valve commands raised for `tank` between `w` and `w1`, in order. -/
def commands (tank : TankId) (w w1 : World) : List ValveCommand :=
  (newEvents w w1).filterMap (Event.command tank)

/-- Whether a command is on the fill axis. -/
def ValveCommand.isFillAxis : ValveCommand → Bool
  | .Fill => true
  | .StopFill => true
  | _ => false

/-- Whether a command is on the drain axis. -/
def ValveCommand.isDrainAxis : ValveCommand → Bool
  | .Drain => true
  | .StopDrain => true
  | _ => false

/-- The fill-axis commands among `cs`. -/
def fillAxis (cs : List ValveCommand) : List ValveCommand := cs.filter ValveCommand.isFillAxis

/-- The drain-axis commands among `cs`. -/
def drainAxis (cs : List ValveCommand) : List ValveCommand := cs.filter ValveCommand.isDrainAxis

/-- The four command channels of `tank` are set (not `NULL`). -/
def channelsPresent (tank : TankId) (w : World) : Prop :=
  w.sem tank.fill_sem ≠ .NULL ∧ w.sem tank.stop_fill_sem ≠ .NULL ∧
  w.sem tank.drain_sem ≠ .NULL ∧ w.sem tank.stop_drain_sem ≠ .NULL

instance (tank : TankId) (w : World) : Decidable (channelsPresent tank w) := by
  unfold channelsPresent
  infer_instance

/-- The HysteresisController of the specification, written from its words with the
thresholds `min_fill = 10`, `fill_to = 20`, `drain_to = 50`, `max_fill = 60`: the new
`filling`, the new `draining` and the commands produced this tick. -/
def evaluate (height : CFloat) (filling draining : Bool) : Bool × Bool × List ValveCommand :=
  let fillPart : Bool × List ValveCommand :=
    if filling && height.ge (.fin 20) then (false, [.StopFill])
    else if !filling && height.le (.fin 10) then (true, [.Fill])
    else (filling, [])
  let drainPart : Bool × List ValveCommand :=
    if draining && height.le (.fin 50) then (false, [.StopDrain])
    else if !draining && height.ge (.fin 60) then (true, [.Drain])
    else (draining, [])
  (fillPart.1, drainPart.1, fillPart.2 ++ drainPart.2)

/-- Feeding `check_ctrl_requirements` a sequence of heights, one call per height, from the
flags `filling`, `draining`: the final world and flags, and the commands of each call. -/
def feed (tank : TankId) :
    World → Bool → Bool → List CFloat → (World × Bool × Bool) × List (List ValveCommand)
  | w, filling, draining, [] => ((w, filling, draining), [])
  | w, filling, draining, h :: hs =>
      let r := check_ctrl_requirements w filling draining h tank.num
      let rest := feed tank r.1 r.2.1 r.2.2 hs
      (rest.1, commands tank w r.1 :: rest.2)

/-- The measurement loop of `tank` run from its initial locals through a list of cycles;
each cycle comes with the world it finds (the other tasks may have changed any semaphore
in between) and the height it computes. -/
def measRun (tank : TankId) : MeasLocals → List (World × CFloat) → MeasLocals
  | l, [] => l
  | l, (w, h) :: rest => measRun tank (meas_task_cycle tank w l h).2 rest

/-- The pure run of `evaluate` over a sequence of heights: the final flags and the commands
of each tick. -/
def evaluateRun : Bool → Bool → List CFloat → (Bool × Bool) × List (List ValveCommand)
  | filling, draining, [] => ((filling, draining), [])
  | filling, draining, h :: hs =>
      let r := evaluate h filling draining
      let rest := evaluateRun r.1 r.2.1 hs
      (rest.1, r.2.2 :: rest.2)

/-- A sequence of heights is non-decreasing: each height is `<=` every later one. -/
def nonDecreasing (hs : List CFloat) : Prop := hs.Pairwise (fun a b => a.le b = true)

/-- A sequence of heights is non-increasing: each height is `>=` every later one. -/
def nonIncreasing (hs : List CFloat) : Prop := hs.Pairwise (fun a b => a.ge b = true)

instance (hs : List CFloat) : Decidable (nonDecreasing hs) := by
  unfold nonDecreasing
  infer_instance

instance (hs : List CFloat) : Decidable (nonIncreasing hs) := by
  unfold nonIncreasing
  infer_instance

/-- Position of the first height `>= c` in `hs` (the length of `hs` if there is none). -/
def firstAtLeast (c : ℚ) (hs : List CFloat) : Nat := hs.findIdx (fun h => h.ge (.fin c))

/-- Position of the first height `<= c` in `hs` (the length of `hs` if there is none). -/
def firstAtMost (c : ℚ) (hs : List CFloat) : Nat := hs.findIdx (fun h => h.le (.fin c))

/-- The world right after the level control task of `tank` has started from boot: its five
semaphores exist and are empty, its valve pins are low. -/
def startedWorld (tank : TankId) : World := (level_ctrl_task_start tank World.boot).1

/-- A step of the system made of one tank's measurement loop and its level control task:
a sampling cycle of the measurement loop that computes `height`, or a poll pass of the
level control task. -/
inductive SysStep where
  | meas (height : CFloat)
  | poll

/-- One step of the composed system of `tank`. -/
def sysStep (tank : TankId) :
    World × MeasLocals × CtrlTask → SysStep → World × MeasLocals × CtrlTask
  | (w, l, t), .meas h => ((meas_task_cycle tank w l h).1, (meas_task_cycle tank w l h).2, t)
  | (w, l, t), .poll => ((level_ctrl_task_cycle tank w t).1, l, (level_ctrl_task_cycle tank w t).2)

/-- A run of the composed system of `tank`: the steps are taken one after the other. -/
def sysRun (tank : TankId) (s : World × MeasLocals × CtrlTask) (steps : List SysStep) :
    World × MeasLocals × CtrlTask :=
  steps.foldl (sysStep tank) s

/-- The schedule in which every measurement cycle is followed by one poll pass. -/
def alternate : List CFloat → List SysStep
  | [] => []
  | h :: hs => .meas h :: .poll :: alternate hs

/-- The composed system of `tank` right after control has been enabled from boot: the enable
task has created its semaphores and handled a rising edge, the level control task of `tank`
has started, the measurement loop still has its initial locals. -/
def enabledState (tank : TankId) : World × MeasLocals × CtrlTask :=
  let w := level_ctrl_enable_task_start World.boot
  let w := gpio2_cb w
  let w := level_ctrl_enable_task_cycle w true
  ((level_ctrl_task_start tank w).1, MeasLocals.init, (level_ctrl_task_start tank w).2)

/-- The measurement loop and the level control task of `tank` agree: same flags, not both
set, the valve pins at the level of the flags, the four command semaphores and the delete
semaphore existing and empty, no control-off pending, and flags clear while control is
off. -/
def synced (tank : TankId) (s : World × MeasLocals × CtrlTask) : Prop :=
  s.2.2.deleted = false ∧ s.2.2.filling = s.2.1.filling ∧ s.2.2.draining = s.2.1.draining ∧
  ¬ (s.2.1.filling = true ∧ s.2.1.draining = true) ∧
  (s.2.1.ctrl_on = false → s.2.1.filling = false ∧ s.2.1.draining = false) ∧
  s.1.gpio tank.fill_pin = s.2.2.filling ∧ s.1.gpio tank.drain_pin = s.2.2.draining ∧
  s.1.sem tank.fill_sem = .live false ∧ s.1.sem tank.stop_fill_sem = .live false ∧
  s.1.sem tank.drain_sem = .live false ∧ s.1.sem tank.stop_drain_sem = .live false ∧
  s.1.sem tank.delete_sem = .live false ∧ s.1.sem tank.ctrl_off_sem ≠ .live true

instance (tank : TankId) (s : World × MeasLocals × CtrlTask) : Decidable (synced tank s) := by
  unfold synced
  infer_instance

/-- The enable task run from boot through a list of edge notifications: before each one the
interrupt posts to `ctrl_enable_sem`, and the task then finds the given line level. -/
def supervisorRun (levels : List Bool) : World :=
  levels.foldl (fun w level => level_ctrl_enable_task_cycle (gpio2_cb w) level)
    (level_ctrl_enable_task_start World.boot)

/-- The state of the EnableSupervisor of the specification after the enable task has
handled notifications with the given line levels: `true` for Enabled, `false` for Disabled
(the initial state). -/
def supervisorEnabled (levels : List Bool) : Bool := levels.getLastD false


/-- The world after one enable / disable round: the enable task started and handled a
rising edge, both level control tasks started, the enable task handled a falling edge, and
both level control tasks ran the poll pass in which they tear down. -/
def tornDownWorld : World :=
  let w := level_ctrl_enable_task_start World.boot
  let w := level_ctrl_enable_task_cycle (gpio2_cb w) true
  let w := (t1_level_ctrl_task_start w).1
  let w := (t2_level_ctrl_task_start w).1
  let w := level_ctrl_enable_task_cycle (gpio2_cb w) false
  let w := (t1_level_ctrl_task_cycle w ⟨false, false, false⟩).1
  (t2_level_ctrl_task_cycle w ⟨false, false, false⟩).1

/-- A run of one tank's level control task: before each pass the other tasks may have
changed the semaphores in any way (the list gives the semaphore state each pass finds);
the output pins are written by this task only. -/
def ctrlRun (tank : TankId) :
    World × CtrlTask → List (Sem → SemaphoreHandle_t) → World × CtrlTask
  | s, [] => s
  | s, sems :: rest => ctrlRun tank (level_ctrl_task_cycle tank { s.1 with sem := sems } s.2) rest

/-- The valve outputs agree with the task's flags while it runs, and are both low once it
has deleted itself. -/
def pinsFollowFlags (tank : TankId) (s : World × CtrlTask) : Prop :=
  if s.2.deleted then s.1.gpio tank.fill_pin = false ∧ s.1.gpio tank.drain_pin = false
  else s.1.gpio tank.fill_pin = s.2.filling ∧ s.1.gpio tank.drain_pin = s.2.draining

instance (tank : TankId) (s : World × CtrlTask) : Decidable (pinsFollowFlags tank s) := by
  unfold pinsFollowFlags; infer_instance

/-- Consecutive passes of `uart_task`, one per byte read: the final state and the string
sent in each pass. -/
def uart_task_run (fmt : CFloat → String) :
    World × UartLocals → List (Nat × QueueRecv × QueueRecv) →
      (World × UartLocals) × List (Option String)
  | s, [] => (s, [])
  | s, (buffer, rx1, rx2) :: rest =>
    let r := uart_task_cycle fmt s.1 s.2 buffer rx1 rx2
    let out := uart_task_run fmt (r.1, r.2.1) rest
    (out.1, r.2.2 :: out.2)

/-- Modelled from the spec: the conversion `%.1f` of a finite value, "formatted with
exactly one digit after the decimal point" (as in `23.4`, `50.0`): a minus sign for a
negative value, the decimal digits of the integer part, a point and one digit, the value
being rounded to the nearest tenth. -/
def printf_1f (q : ℚ) : String :=
  let tenths : Nat := Int.toNat ⌊|q| * 10 + 1 / 2⌋
  (if q < 0 then "-" else "") ++ Nat.repr (tenths / 10) ++ "." ++ Nat.repr (tenths % 10)

/-- Modelled from the spec: the conversion `%.1f` of a `float`; the values that are not
finite print as the C library prints them. -/
def printf_float : CFloat → String
  | .nan => "nan"
  | .negInf => "-inf"
  | .fin q => printf_1f q
  | .posInf => "inf"

/-- A slot of an averaging window holds 0 (its initial value) or a pressure computed from a
12-bit raw reading. -/
def slotOfAdc (p : ℚ) : Prop :=
  p = 0 ∨ ∃ r g : Nat, r ≤ 4095 ∧ p = calc_pressure r g

/-! ## Auxiliary forms of the code, used in the proofs -/

/-- A give guarded by the `!= NULL` test, as written at each call site. -/
def giveIfSet (w : World) (s : Sem) : World :=
  if w.sem s ≠ .NULL then xSemaphoreGive w s else w


/-- A take guarded by the `!= NULL` test, as written at each call site. -/
def takeIfSet (w : World) (s : Sem) : Bool × World :=
  if w.sem s ≠ .NULL then xSemaphoreTake w s else (false, w)


/-- The pin handler of a tank. -/
def handle_ctrl_pins : TankId → World → Bool → Bool → Bool → World
  | .Tank1 => handle_t1_ctrl_pins
  | .Tank2 => handle_t2_ctrl_pins

/-- The deinitialisation helper of a tank's level control task. -/
def deinit_level_ctrl_task : TankId → World → World
  | .Tank1 => deinit_t1_level_ctrl_task
  | .Tank2 => deinit_t2_level_ctrl_task

/-- First block of a poll pass (the `if (filling)` statement), for either tank. -/
def fillStage (tank : TankId) (w : World) (filling draining : Bool) : World × Bool :=
  if filling then
    if w.sem tank.stop_fill_sem ≠ .NULL then
      let (ok, w) := xSemaphoreTake w tank.stop_fill_sem
      if ok then (handle_ctrl_pins tank w false draining false, false) else (w, filling)
    else (w, filling)
  else
    if w.sem tank.fill_sem ≠ .NULL then
      let (ok, w) := xSemaphoreTake w tank.fill_sem
      if ok then (handle_ctrl_pins tank w true draining false, true) else (w, filling)
    else (w, filling)

/-- Second block of a poll pass (the `if (draining)` statement), for either tank;
`filling` is the flag left by the first block. -/
def drainStage (tank : TankId) (w : World) (filling draining : Bool) : World × Bool :=
  if draining then
    if w.sem tank.stop_drain_sem ≠ .NULL then
      let (ok, w) := xSemaphoreTake w tank.stop_drain_sem
      if ok then (handle_ctrl_pins tank w filling false false, false) else (w, draining)
    else (w, draining)
  else
    if w.sem tank.drain_sem ≠ .NULL then
      let (ok, w) := xSemaphoreTake w tank.drain_sem
      if ok then (handle_ctrl_pins tank w filling true false, true) else (w, draining)
    else (w, draining)

/-- Third block of a poll pass (the delete check), for either tank. -/
def deleteStage (tank : TankId) (w : World) (filling draining : Bool) : World × CtrlTask :=
  if w.sem tank.delete_sem ≠ .NULL then
    let (ok, w) := xSemaphoreTake w tank.delete_sem
    if ok then (vTaskDelete (deinit_level_ctrl_task tank w), ⟨filling, draining, true⟩)
    else (w, ⟨filling, draining, false⟩)
  else (w, ⟨filling, draining, false⟩)


/-! ## Basic facts -/

@[simp] theorem CFloat.le_fin_fin (a b : ℚ) : CFloat.le (.fin a) (.fin b) = decide (a ≤ b) := rfl

@[simp] theorem CFloat.nan_le (b : CFloat) : CFloat.le .nan b = false := by
  cases b <;> rfl

@[simp] theorem CFloat.le_nan (a : CFloat) : CFloat.le a .nan = false := by
  cases a <;> rfl

theorem CFloat.le_trans {a b c : CFloat} (h1 : CFloat.le a b = true) (h2 : CFloat.le b c = true) :
    CFloat.le a c = true := by
  cases a <;> cases b <;> cases c <;> simp_all [CFloat.le]
  exact h1.trans h2

@[simp] theorem xSemaphoreGive_log (w : World) (s : Sem) :
    (xSemaphoreGive w s).log = w.log ++ [.give s] := rfl

@[simp] theorem xSemaphoreGive_gpio (w : World) (s : Sem) :
    (xSemaphoreGive w s).gpio = w.gpio := rfl

@[simp] theorem xSemaphoreGive_sem_eq_NULL (w : World) (s s1 : Sem) :
    (xSemaphoreGive w s).sem s1 = .NULL ↔ w.sem s1 = .NULL := by
  unfold xSemaphoreGive
  cases h : w.sem s <;> simp
  by_cases hs : s1 = s
  · subst hs; simp [h]
  · simp [Function.update_noteq hs]

theorem newEvents_of_log {w w1 : World} {evs : List Event} (h : w1.log = w.log ++ evs) :
    newEvents w w1 = evs := by
  simp [newEvents, h]


theorem giveIfSet_log (w : World) (s : Sem) :
    (giveIfSet w s).log = w.log ++ (if w.sem s ≠ .NULL then [Event.give s] else []) := by
  unfold giveIfSet; split_ifs <;> simp

@[simp] theorem giveIfSet_gpio (w : World) (s : Sem) : (giveIfSet w s).gpio = w.gpio := by
  unfold giveIfSet; split_ifs <;> simp

@[simp] theorem giveIfSet_sem_eq_NULL (w : World) (s s1 : Sem) :
    (giveIfSet w s).sem s1 = .NULL ↔ w.sem s1 = .NULL := by
  unfold giveIfSet; split_ifs <;> simp

/-- `check_ctrl_requirements` for a tank, with the `tank ==` tests resolved. -/
theorem check_ctrl_requirements_norm (w : World) (f d : Bool) (h : CFloat) (tank : TankId) :
    check_ctrl_requirements w f d h tank.num =
      (let w1 := if f then (if h.ge (.fin 20) then giveIfSet w tank.stop_fill_sem else w)
                 else (if h.le (.fin 10) then giveIfSet w tank.fill_sem else w)
       let f1 := if f then (if h.ge (.fin 20) then false else f)
                 else (if h.le (.fin 10) then true else f)
       let w2 := if d then (if h.le (.fin 50) then giveIfSet w1 tank.stop_drain_sem else w1)
                 else (if h.ge (.fin 60) then giveIfSet w1 tank.drain_sem else w1)
       let d1 := if d then (if h.le (.fin 50) then false else d)
                 else (if h.ge (.fin 60) then true else d)
       (w2, f1, d1)) := by
  cases tank <;> cases f <;> cases d <;>
  simp only [check_ctrl_requirements, TankId.num, TANK_1, TANK_2, TANK_1_FILL_TO_LEVEL,
      TANK_1_MAX_FILL_LEVEL, TANK_1_DRAIN_TO_LEVEL, TANK_1_MIN_FILL_LEVEL,
      TANK_2_FILL_TO_LEVEL, TANK_2_MAX_FILL_LEVEL, TANK_2_DRAIN_TO_LEVEL,
      TANK_2_MIN_FILL_LEVEL, TankId.fill_sem, TankId.stop_fill_sem,
      TankId.drain_sem, TankId.stop_drain_sem,
      giveIfSet, if_true, if_false, reduceIte, Bool.false_eq_true,
      (by decide : ¬ ((2 : Nat) = 1))] <;>
  split_ifs <;> rfl


/-- The flags after one call of `check_ctrl_requirements` are those of `evaluate`. -/
theorem check_ctrl_requirements_flags (w : World) (f d : Bool) (h : CFloat) (tank : TankId) :
    (check_ctrl_requirements w f d h tank.num).2 = ((evaluate h f d).1, (evaluate h f d).2.1) := by
  rw [check_ctrl_requirements_norm]
  cases f <;> cases d <;> simp [evaluate] <;> split_ifs <;> simp_all

/-- The gives a call of `check_ctrl_requirements` logs: first the fill axis, then the drain
axis, each only when its handle is set. -/
theorem check_ctrl_requirements_log (w : World) (f d : Bool) (h : CFloat) (tank : TankId) :
    (check_ctrl_requirements w f d h tank.num).1.log = w.log ++
      ((if f then
          (if h.ge (.fin 20) ∧ w.sem tank.stop_fill_sem ≠ .NULL
            then [Event.give tank.stop_fill_sem] else [])
        else
          (if h.le (.fin 10) ∧ w.sem tank.fill_sem ≠ .NULL
            then [Event.give tank.fill_sem] else []))
      ++ (if d then
          (if h.le (.fin 50) ∧ w.sem tank.stop_drain_sem ≠ .NULL
            then [Event.give tank.stop_drain_sem] else [])
        else
          (if h.ge (.fin 60) ∧ w.sem tank.drain_sem ≠ .NULL
            then [Event.give tank.drain_sem] else []))) := by
  rw [check_ctrl_requirements_norm]
  cases f <;> cases d <;>
    by_cases ha : CFloat.ge h (.fin 20) = true <;>
    by_cases hb : CFloat.le h (.fin 10) = true <;>
    by_cases hc : CFloat.le h (.fin 50) = true <;>
    by_cases he : CFloat.ge h (.fin 60) = true <;>
    simp [ha, hb, hc, he, giveIfSet_log]

/-- A call of `check_ctrl_requirements` writes no pin. -/
theorem check_ctrl_requirements_gpio (w : World) (f d : Bool) (h : CFloat) (tank : TankId) :
    (check_ctrl_requirements w f d h tank.num).1.gpio = w.gpio := by
  rw [check_ctrl_requirements_norm]
  cases f <;> cases d <;> simp <;> split_ifs <;> simp

/-- A call of `check_ctrl_requirements` leaves every handle `NULL` or not as it was. -/
theorem check_ctrl_requirements_sem_NULL (w : World) (f d : Bool) (h : CFloat) (tank : TankId)
    (s : Sem) :
    (check_ctrl_requirements w f d h tank.num).1.sem s = .NULL ↔ w.sem s = .NULL := by
  rw [check_ctrl_requirements_norm]
  cases f <;> cases d <;> simp <;> split_ifs <;> simp

/-- With the four command channels of the tank set, the commands raised by one call of
`check_ctrl_requirements` are those of `evaluate`. -/
theorem commands_check_ctrl_requirements (w : World) (f d : Bool) (h : CFloat) (tank : TankId)
    (hp : channelsPresent tank w) :
    commands tank w (check_ctrl_requirements w f d h tank.num).1 = (evaluate h f d).2.2 := by
  unfold commands
  rw [newEvents_of_log (check_ctrl_requirements_log w f d h tank)]
  obtain ⟨h1, h2, h3, h4⟩ := hp
  cases tank <;> cases f <;> cases d <;>
    by_cases ha : CFloat.ge h (.fin 20) = true <;>
    by_cases hb : CFloat.le h (.fin 10) = true <;>
    by_cases hc : CFloat.le h (.fin 50) = true <;>
    by_cases he : CFloat.ge h (.fin 60) = true <;>
    simp_all [evaluate, Event.command, TankId.fill_sem, TankId.stop_fill_sem,
      TankId.drain_sem, TankId.stop_drain_sem]

/-- The channels of a tank stay set across a call of `check_ctrl_requirements`. -/
theorem channelsPresent_check_ctrl_requirements (w : World) (f d : Bool) (h : CFloat)
    (tank : TankId) (hp : channelsPresent tank w) :
    channelsPresent tank (check_ctrl_requirements w f d h tank.num).1 := by
  unfold channelsPresent at *
  simp only [ne_eq, check_ctrl_requirements_sem_NULL]
  exact hp

theorem CFloat.ge_of_ge_fin {h : CFloat} {a b : ℚ} (hh : h.ge (.fin a) = true) (hab : b ≤ a) :
    h.ge (.fin b) = true := by
  unfold CFloat.ge at *
  exact CFloat.le_trans (by simpa using hab) hh

theorem CFloat.le_of_le_fin {h : CFloat} {a b : ℚ} (hh : h.le (.fin a) = true) (hab : a ≤ b) :
    h.le (.fin b) = true :=
  CFloat.le_trans hh (by simpa using hab)

theorem CFloat.not_le_and_ge {h : CFloat} {a b : ℚ} (h1 : h.le (.fin a) = true)
    (h2 : h.ge (.fin b) = true) (hab : a < b) : False := by
  have h3 := CFloat.le_trans h2 h1
  simp at h3
  exact absurd hab (not_lt.mpr h3)

/-- The flags of `evaluate` are never both set when they were not both set before. -/
theorem evaluate_not_both (h : CFloat) (f d : Bool) (hfd : ¬ (f = true ∧ d = true)) :
    ¬ ((evaluate h f d).1 = true ∧ (evaluate h f d).2.1 = true) := by
  by_cases ha : CFloat.ge h (.fin 20) = true <;>
  by_cases hb : CFloat.le h (.fin 10) = true <;>
  by_cases hc : CFloat.le h (.fin 50) = true <;>
  by_cases he : CFloat.ge h (.fin 60) = true <;>
  first
  | exact (CFloat.not_le_and_ge hb he (by norm_num)).elim
  | exact (ha (CFloat.ge_of_ge_fin he (by norm_num))).elim
  | exact (hc (CFloat.le_of_le_fin hb (by norm_num))).elim
  | (cases f <;> cases d <;> simp_all [evaluate])

/-- The locals after a measurement cycle: control off with both flags cleared, or control
on with the flags of `evaluate`. -/
theorem meas_task_cycle_locals (tank : TankId) (w : World) (l : MeasLocals) (h : CFloat) :
    (meas_task_cycle tank w l h).2 = ⟨false, false, false⟩ ∨
    (meas_task_cycle tank w l h).2 =
      ⟨(evaluate h l.filling l.draining).1, (evaluate h l.filling l.draining).2.1, true⟩ := by
  have key : ∀ w1 : World, (check_ctrl_requirements w1 l.filling l.draining h tank.num).2 =
      ((evaluate h l.filling l.draining).1, (evaluate h l.filling l.draining).2.1) :=
    fun w1 => check_ctrl_requirements_flags w1 _ _ h tank
  cases tank <;>
    simp only [meas_task_cycle, t1_meas_task_cycle, t2_meas_task_cycle, TankId.num] at key ⊢ <;>
    split_ifs <;> simp_all

/-- From locals whose flags are not both set, no run of measurement cycles sets both. -/
theorem measRun_not_both (tank : TankId) (cycles : List (World × CFloat)) (l : MeasLocals)
    (hl : ¬ (l.filling = true ∧ l.draining = true)) :
    ¬ ((measRun tank l cycles).filling = true ∧ (measRun tank l cycles).draining = true) := by
  induction cycles generalizing l with
  | nil => simpa [measRun] using hl
  | cons c rest ih =>
    obtain ⟨w, h⟩ := c
    simp only [measRun]
    apply ih
    rcases meas_task_cycle_locals tank w l h with e | e
    · rw [e]; simp
    · rw [e]; exact evaluate_not_both h _ _ hl

/-- C1. For each tank, after any sequence of measurement cycles from the initial locals
`filling = draining = ctrl_on = false`, whatever world (pending control-on / control-off
signals, handles set or not) and whatever height each cycle meets, the locals `filling` and
`draining` are not both true. -/
theorem meas_task_filling_draining_exclusive (tank : TankId) (cycles : List (World × CFloat)) :
    ¬ ((measRun tank MeasLocals.init cycles).filling = true ∧
       (measRun tank MeasLocals.init cycles).draining = true) :=
  measRun_not_both tank cycles MeasLocals.init (by simp [MeasLocals.init])

@[simp] theorem Event.command_give_fill (tank : TankId) :
    Event.command tank (.give tank.fill_sem) = some .Fill := by
  cases tank <;> rfl

@[simp] theorem Event.command_give_stop_fill (tank : TankId) :
    Event.command tank (.give tank.stop_fill_sem) = some .StopFill := by
  cases tank <;> rfl

@[simp] theorem Event.command_give_drain (tank : TankId) :
    Event.command tank (.give tank.drain_sem) = some .Drain := by
  cases tank <;> rfl

@[simp] theorem Event.command_give_stop_drain (tank : TankId) :
    Event.command tank (.give tank.stop_drain_sem) = some .StopDrain := by
  cases tank <;> rfl

/-- The commands raised by one call of `check_ctrl_requirements`, whatever handles are
set: at most one of the fill axis, then at most one of the drain axis. -/
theorem commands_check_ctrl_requirements_parts (w : World) (f d : Bool) (h : CFloat)
    (tank : TankId) :
    commands tank w (check_ctrl_requirements w f d h tank.num).1 =
      (if f then
          (if h.ge (.fin 20) ∧ w.sem tank.stop_fill_sem ≠ .NULL then [ValveCommand.StopFill]
            else [])
        else
          (if h.le (.fin 10) ∧ w.sem tank.fill_sem ≠ .NULL then [ValveCommand.Fill] else []))
      ++ (if d then
          (if h.le (.fin 50) ∧ w.sem tank.stop_drain_sem ≠ .NULL then [ValveCommand.StopDrain]
            else [])
        else
          (if h.ge (.fin 60) ∧ w.sem tank.drain_sem ≠ .NULL then [ValveCommand.Drain]
            else [])) := by
  unfold commands
  rw [newEvents_of_log (check_ctrl_requirements_log w f d h tank), List.filterMap_append]
  congr 1
  · cases f <;> simp only [if_true, if_false, Bool.false_eq_true] <;> split_ifs <;> simp
  · cases d <;> simp only [if_true, if_false, Bool.false_eq_true] <;> split_ifs <;> simp

/-- C2. For each tank whose fill and stop-fill handles are set, any height and any flags,
`check_ctrl_requirements` acts on the fill axis as follows: filling and `height >= 20`
raises exactly StopFill and clears `filling`; not filling and `height <= 10` raises exactly
Fill and sets `filling`; otherwise no fill-axis command is raised and `filling` is kept. -/
theorem check_ctrl_requirements_fill_axis (w : World) (filling draining : Bool)
    (height : CFloat) (tank : TankId) (hfill : w.sem tank.fill_sem ≠ .NULL)
    (hstop : w.sem tank.stop_fill_sem ≠ .NULL) :
    (filling = true ∧ height.ge (.fin 20) = true →
      fillAxis (commands tank w (check_ctrl_requirements w filling draining height tank.num).1)
          = [.StopFill]
        ∧ (check_ctrl_requirements w filling draining height tank.num).2.1 = false)
    ∧ (filling = false ∧ height.le (.fin 10) = true →
      fillAxis (commands tank w (check_ctrl_requirements w filling draining height tank.num).1)
          = [.Fill]
        ∧ (check_ctrl_requirements w filling draining height tank.num).2.1 = true)
    ∧ (¬ (filling = true ∧ height.ge (.fin 20) = true) →
        ¬ (filling = false ∧ height.le (.fin 10) = true) →
      fillAxis (commands tank w (check_ctrl_requirements w filling draining height tank.num).1)
          = []
        ∧ (check_ctrl_requirements w filling draining height tank.num).2.1 = filling) := by
  rw [commands_check_ctrl_requirements_parts, check_ctrl_requirements_flags]
  have hd : fillAxis (if draining then
          (if height.le (.fin 50) ∧ w.sem tank.stop_drain_sem ≠ .NULL
            then [ValveCommand.StopDrain] else [])
        else
          (if height.ge (.fin 60) ∧ w.sem tank.drain_sem ≠ .NULL then [ValveCommand.Drain]
            else [])) = [] := by
    split_ifs <;> rfl
  unfold fillAxis at hd ⊢
  rw [List.filter_append, hd]
  cases filling <;>
    by_cases ha : CFloat.ge height (.fin 20) = true <;>
    by_cases hb : CFloat.le height (.fin 10) = true <;>
    simp [evaluate, ValveCommand.isFillAxis, ha, hb, hfill, hstop]

/-- C3. For each tank whose drain and stop-drain handles are set, any height and any flags,
`check_ctrl_requirements` acts on the drain axis as follows: draining and `height <= 50`
raises exactly StopDrain and clears `draining`; not draining and `height >= 60` raises
exactly Drain and sets `draining`; otherwise no drain-axis command is raised and `draining`
is kept. -/
theorem check_ctrl_requirements_drain_axis (w : World) (filling draining : Bool)
    (height : CFloat) (tank : TankId) (hdrain : w.sem tank.drain_sem ≠ .NULL)
    (hstop : w.sem tank.stop_drain_sem ≠ .NULL) :
    (draining = true ∧ height.le (.fin 50) = true →
      drainAxis (commands tank w (check_ctrl_requirements w filling draining height tank.num).1)
          = [.StopDrain]
        ∧ (check_ctrl_requirements w filling draining height tank.num).2.2 = false)
    ∧ (draining = false ∧ height.ge (.fin 60) = true →
      drainAxis (commands tank w (check_ctrl_requirements w filling draining height tank.num).1)
          = [.Drain]
        ∧ (check_ctrl_requirements w filling draining height tank.num).2.2 = true)
    ∧ (¬ (draining = true ∧ height.le (.fin 50) = true) →
        ¬ (draining = false ∧ height.ge (.fin 60) = true) →
      drainAxis (commands tank w (check_ctrl_requirements w filling draining height tank.num).1)
          = []
        ∧ (check_ctrl_requirements w filling draining height tank.num).2.2 = draining) := by
  rw [commands_check_ctrl_requirements_parts, check_ctrl_requirements_flags]
  have hf : drainAxis (if filling then
          (if height.ge (.fin 20) ∧ w.sem tank.stop_fill_sem ≠ .NULL
            then [ValveCommand.StopFill] else [])
        else
          (if height.le (.fin 10) ∧ w.sem tank.fill_sem ≠ .NULL then [ValveCommand.Fill]
            else [])) = [] := by
    split_ifs <;> rfl
  unfold drainAxis at hf ⊢
  rw [List.filter_append, hf]
  cases draining <;>
    by_cases hc : CFloat.le height (.fin 50) = true <;>
    by_cases he : CFloat.ge height (.fin 60) = true <;>
    simp [evaluate, ValveCommand.isDrainAxis, hc, he, hdrain, hstop]

/-- With the tank's four channels set, feeding heights to `check_ctrl_requirements` gives
the flags and the per-call commands of the pure run of `evaluate`. -/
theorem feed_eq_evaluateRun (tank : TankId) (hs : List CFloat) (w : World) (f d : Bool)
    (hp : channelsPresent tank w) :
    (feed tank w f d hs).1.2 = (evaluateRun f d hs).1 ∧
    (feed tank w f d hs).2 = (evaluateRun f d hs).2 := by
  induction hs generalizing w f d with
  | nil => simp [feed, evaluateRun]
  | cons h t ih =>
    have hp1 := channelsPresent_check_ctrl_requirements w f d h tank hp
    have hfl := check_ctrl_requirements_flags w f d h tank
    have hc := commands_check_ctrl_requirements w f d h tank hp
    have h1 := ih (check_ctrl_requirements w f d h tank.num).1
      (check_ctrl_requirements w f d h tank.num).2.1
      (check_ctrl_requirements w f d h tank.num).2.2 hp1
    simp only [feed, evaluateRun]
    rw [hc, h1.1, h1.2, hfl]
    exact ⟨rfl, rfl⟩

theorem channelsPresent_startedWorld (tank : TankId) : channelsPresent tank (startedWorld tank) := by
  cases tank <;> decide

/-- C4, counterexample. With thresholds 10 / 20 / 50 / 60 and the channels of tank 1 set, the
heights `[8, 15, 22, 55, 48]` fed from `filling = draining = false` do not give the claimed
per-cycle commands `[Fill, -, StopFill, Drain, StopDrain]`: 55 is below `max_fill = 60`. -/
theorem scenario1_sequence_not_as_claimed :
    (feed .Tank1 (startedWorld .Tank1) false false
        [.fin 8, .fin 15, .fin 22, .fin 55, .fin 48]).2
      ≠ [[.Fill], [], [.StopFill], [.Drain], [.StopDrain]] := by
  decide

/-- C4, amended. For each tank with its four channels set, from `filling = draining = false`
the heights `[8, 15, 22, 55, 48]` give the per-cycle commands `[Fill, -, StopFill, -, -]`;
the claimed `[Fill, -, StopFill, Drain, StopDrain]` is what `[8, 15, 22, 65, 48]` gives. -/
theorem scenario1_sequence (tank : TankId) (w : World) (hp : channelsPresent tank w) :
    (feed tank w false false [.fin 8, .fin 15, .fin 22, .fin 55, .fin 48]).2
      = [[.Fill], [], [.StopFill], [], []] ∧
    (feed tank w false false [.fin 8, .fin 15, .fin 22, .fin 65, .fin 48]).2
      = [[.Fill], [], [.StopFill], [.Drain], [.StopDrain]] := by
  rw [(feed_eq_evaluateRun tank _ _ false false hp).2,
    (feed_eq_evaluateRun tank _ _ false false hp).2]
  decide

theorem evaluate_draining_high {h : CFloat} (hh : h.ge (.fin 60) = true) :
    evaluate h false true = (false, true, []) := by
  have h1 : h.le (.fin 10) = false := by
    by_contra hc
    exact CFloat.not_le_and_ge (by simpa using hc) hh (by norm_num)
  have h2 : h.le (.fin 50) = false := by
    by_contra hc
    exact CFloat.not_le_and_ge (by simpa using hc) hh (by norm_num)
  simp [evaluate, h1, h2]

theorem evaluate_idle_mid {h : CFloat} (hh : h.ge (.fin 20) = true) :
    evaluate h false false =
      (false, h.ge (.fin 60), if h.ge (.fin 60) then [.Drain] else []) := by
  have h1 : h.le (.fin 10) = false := by
    by_contra hc
    exact CFloat.not_le_and_ge (by simpa using hc) hh (by norm_num)
  by_cases he : h.ge (.fin 60) = true <;> simp [evaluate, h1, he]

theorem evaluate_filling (h : CFloat) :
    evaluate h true false =
      (!(h.ge (.fin 20)), h.ge (.fin 60),
        (if h.ge (.fin 20) then [.StopFill] else []) ++
        (if h.ge (.fin 60) then [.Drain] else [])) := by
  by_cases ha : h.ge (.fin 20) = true <;> by_cases he : h.ge (.fin 60) = true <;>
    simp [evaluate, ha, he]

/-- Draining and not filling, heights all `>= 60`: nothing is raised, the flags stay. -/
theorem evaluateRun_draining_high (hs : List CFloat) (hall : ∀ h ∈ hs, h.ge (.fin 60) = true) :
    evaluateRun false true hs = ((false, true), List.replicate hs.length []) := by
  induction hs with
  | nil => rfl
  | cons h t ih =>
    have ht := ih (fun x hx => hall x (List.mem_cons_of_mem _ hx))
    simp [evaluateRun, evaluate_draining_high (hall h (List.mem_cons_self _ _)), ht,
      List.replicate_succ]

theorem range_map_succ {α : Type} (n : Nat) (g : Nat → α) :
    (List.range (n + 1)).map g = g 0 :: (List.range n).map (fun i => g (i + 1)) := by
  rw [List.range_succ_eq_map, List.map_cons, List.map_map]
  rfl

theorem range_map_const {α : Type} (n : Nat) (c : α) :
    (List.range n).map (fun _ => c) = List.replicate n c := by
  induction n with
  | zero => rfl
  | succ k ih => rw [range_map_succ, ih, List.replicate_succ]

/-- Idle (neither flag set), non-decreasing heights all `>= 20`: Drain is raised at the
first height `>= 60` and nothing else is raised. -/
theorem evaluateRun_idle_rising (hs : List CFloat) (hmono : nonDecreasing hs)
    (hall : ∀ h ∈ hs, h.ge (.fin 20) = true) :
    (evaluateRun false false hs).2 =
      (List.range hs.length).map
        (fun i => if i = firstAtLeast 60 hs then [ValveCommand.Drain] else []) ∧
    ((∃ x ∈ hs, x.ge (.fin 60) = true) →
      (evaluateRun false false hs).2.flatten = [ValveCommand.Drain]) := by
  induction hs with
  | nil => simp [evaluateRun]
  | cons h t ih =>
    have hmono1 : nonDecreasing t := (List.pairwise_cons.mp hmono).2
    have hle : ∀ x ∈ t, h.le x = true := (List.pairwise_cons.mp hmono).1
    have hall1 : ∀ x ∈ t, x.ge (.fin 20) = true := fun x hx => hall x (List.mem_cons_of_mem _ hx)
    have hh := hall h (List.mem_cons_self _ _)
    obtain ⟨ih1, ih2⟩ := ih hmono1 hall1
    by_cases he : h.ge (.fin 60) = true
    · have hhigh : ∀ x ∈ t, x.ge (.fin 60) = true := fun x hx => CFloat.le_trans he (hle x hx)
      have hrun := evaluateRun_draining_high t hhigh
      simp only [evaluateRun, evaluate_idle_mid hh, he, hrun, List.length_cons, range_map_succ,
        firstAtLeast, List.findIdx_cons]
      simp [range_map_const]
    · have he1 : h.ge (.fin 60) = false := by simpa using he
      simp only [evaluateRun, evaluate_idle_mid hh, he1, List.length_cons, range_map_succ,
        firstAtLeast, List.findIdx_cons]
      refine ⟨?_, ?_⟩
      · simp [ih1, firstAtLeast]
      · rintro ⟨x, hx, hx60⟩
        rcases List.mem_cons.mp hx with rfl | hxt
        · exact absurd hx60 he
        · simpa using ih2 ⟨x, hxt, hx60⟩
/-- Filling and not draining, non-decreasing heights: StopFill is raised at the first
height `>= 20`, Drain at the first height `>= 60`, and nothing else is raised. -/
theorem evaluateRun_filling_rising (hs : List CFloat) (hmono : nonDecreasing hs) :
    (evaluateRun true false hs).2 =
      (List.range hs.length).map
        (fun i => (if i = firstAtLeast 20 hs then [ValveCommand.StopFill] else []) ++
                  (if i = firstAtLeast 60 hs then [ValveCommand.Drain] else [])) ∧
    ((∃ x ∈ hs, x.ge (.fin 60) = true) →
      (evaluateRun true false hs).2.flatten = [ValveCommand.StopFill, ValveCommand.Drain]) := by
  induction hs with
  | nil => simp [evaluateRun]
  | cons h t ih =>
    have hmono1 : nonDecreasing t := (List.pairwise_cons.mp hmono).2
    have hle : ∀ x ∈ t, h.le x = true := (List.pairwise_cons.mp hmono).1
    obtain ⟨ih1, ih2⟩ := ih hmono1
    by_cases ha : h.ge (.fin 20) = true
    · have hmid : ∀ x ∈ t, x.ge (.fin 20) = true := fun x hx => CFloat.le_trans ha (hle x hx)
      by_cases he : h.ge (.fin 60) = true
      · have hhigh : ∀ x ∈ t, x.ge (.fin 60) = true :=
          fun x hx => CFloat.le_trans he (hle x hx)
        have hrun := evaluateRun_draining_high t hhigh
        simp only [evaluateRun, evaluate_filling, ha, he, Bool.not_true, hrun, List.length_cons,
          range_map_succ, firstAtLeast, List.findIdx_cons]
        simp [range_map_const]
      · have he1 : h.ge (.fin 60) = false := by simpa using he
        obtain ⟨hb1, hb2⟩ := evaluateRun_idle_rising t hmono1 hmid
        simp only [evaluateRun, evaluate_filling, ha, he1, Bool.not_true, List.length_cons,
          range_map_succ, firstAtLeast, List.findIdx_cons]
        refine ⟨?_, ?_⟩
        · simp [hb1, firstAtLeast]
        · rintro ⟨x, hx, hx60⟩
          rcases List.mem_cons.mp hx with rfl | hxt
          · exact absurd hx60 he
          · simpa using hb2 ⟨x, hxt, hx60⟩
    · have ha1 : h.ge (.fin 20) = false := by simpa using ha
      have he1 : h.ge (.fin 60) = false := by
        by_contra hc
        exact ha (CFloat.ge_of_ge_fin (by simpa using hc) (by norm_num))
      simp only [evaluateRun, evaluate_filling, ha1, he1, Bool.not_false, List.length_cons,
        range_map_succ, firstAtLeast, List.findIdx_cons]
      refine ⟨?_, ?_⟩
      · simp [ih1, firstAtLeast]
      · rintro ⟨x, hx, hx60⟩
        rcases List.mem_cons.mp hx with rfl | hxt
        · exact absurd hx60 (by simp [he1])
        · simpa using ih2 ⟨x, hxt, hx60⟩

theorem evaluate_idle_low {h : CFloat} (h50 : h.le (.fin 50) = true)
    (h10 : h.le (.fin 10) = false) : evaluate h false false = (false, false, []) := by
  have h60 : h.ge (.fin 60) = false := by
    by_contra hc
    exact CFloat.not_le_and_ge h50 (by simpa using hc) (by norm_num)
  simp [evaluate, h10, h60]

theorem evaluate_draining (h : CFloat) (h10 : h.le (.fin 10) = false) :
    evaluate h false true =
      (false, !(h.le (.fin 50)), if h.le (.fin 50) then [.StopDrain] else []) := by
  by_cases hc : h.le (.fin 50) = true <;> simp [evaluate, h10, hc]

/-- Idle, heights all `<= 50` and none `<= 10`: nothing is raised, the flags stay. -/
theorem evaluateRun_idle_low (hs : List CFloat) (h50 : ∀ h ∈ hs, h.le (.fin 50) = true)
    (h10 : ∀ h ∈ hs, h.le (.fin 10) = false) :
    evaluateRun false false hs = ((false, false), List.replicate hs.length []) := by
  induction hs with
  | nil => rfl
  | cons h t ih =>
    have ht := ih (fun x hx => h50 x (List.mem_cons_of_mem _ hx))
      (fun x hx => h10 x (List.mem_cons_of_mem _ hx))
    simp [evaluateRun, evaluate_idle_low (h50 h (List.mem_cons_self _ _))
      (h10 h (List.mem_cons_self _ _)), ht, List.replicate_succ]

/-- Draining and not filling, non-increasing heights none of which is `<= 10`: StopDrain is
raised at the first height `<= 50` and nothing else is raised; once it has been raised both
flags are clear. -/
theorem evaluateRun_draining_falling (hs : List CFloat) (hmono : nonIncreasing hs)
    (h10 : ∀ h ∈ hs, h.le (.fin 10) = false) :
    (evaluateRun false true hs).2 =
      (List.range hs.length).map
        (fun i => if i = firstAtMost 50 hs then [ValveCommand.StopDrain] else []) ∧
    ((∃ x ∈ hs, x.le (.fin 50) = true) →
      (evaluateRun false true hs).2.flatten = [ValveCommand.StopDrain] ∧
      (evaluateRun false true hs).1 = (false, false)) := by
  induction hs with
  | nil => simp [evaluateRun]
  | cons h t ih =>
    have hmono1 : nonIncreasing t := (List.pairwise_cons.mp hmono).2
    have hge : ∀ x ∈ t, h.ge x = true := (List.pairwise_cons.mp hmono).1
    have h10t : ∀ x ∈ t, x.le (.fin 10) = false := fun x hx => h10 x (List.mem_cons_of_mem _ hx)
    have hh := h10 h (List.mem_cons_self _ _)
    obtain ⟨ih1, ih2⟩ := ih hmono1 h10t
    by_cases hc : h.le (.fin 50) = true
    · have hlow : ∀ x ∈ t, x.le (.fin 50) = true := fun x hx => CFloat.le_trans (hge x hx) hc
      have hrun := evaluateRun_idle_low t hlow h10t
      simp only [evaluateRun, evaluate_draining h hh, hc, Bool.not_true, hrun, List.length_cons,
        range_map_succ, firstAtMost, List.findIdx_cons]
      simp [range_map_const]
    · have hc1 : h.le (.fin 50) = false := by simpa using hc
      simp only [evaluateRun, evaluate_draining h hh, hc1, Bool.not_false, List.length_cons,
        range_map_succ, firstAtMost, List.findIdx_cons]
      refine ⟨?_, ?_⟩
      · simp [ih1, firstAtMost]
      · rintro ⟨x, hx, hx50⟩
        rcases List.mem_cons.mp hx with rfl | hxt
        · exact absurd hx50 hc
        · simpa using ih2 ⟨x, hxt, hx50⟩

/-- A `tank` argument that is neither `TANK_1` nor `TANK_2` makes `check_ctrl_requirements`
do nothing. -/
theorem check_ctrl_requirements_other (w : World) (f d : Bool) (h : CFloat) (n : Nat)
    (h1 : n ≠ 1) (h2 : n ≠ 2) : check_ctrl_requirements w f d h n = (w, f, d) := by
  cases f <;> cases d <;> simp [check_ctrl_requirements, TANK_1, TANK_2, h1, h2]

/-- A call of `check_ctrl_requirements` for one tank raises no command of the other. -/
theorem commands_check_ctrl_requirements_cross (w : World) (f d : Bool) (h : CFloat)
    (tank other : TankId) (hne : tank ≠ other) :
    commands tank w (check_ctrl_requirements w f d h other.num).1 = [] := by
  unfold commands
  rw [newEvents_of_log (check_ctrl_requirements_log w f d h other), List.filterMap_append]
  cases tank <;> cases other <;> first
    | exact absurd rfl hne
    | (cases f <;> cases d <;>
        simp only [if_true, if_false, Bool.false_eq_true] <;> split_ifs <;>
        simp [Event.command, TankId.fill_sem, TankId.stop_fill_sem, TankId.drain_sem,
          TankId.stop_drain_sem])

/-- C7. For every height, every flag state, every world and every `tank` argument, the
commands one call of `check_ctrl_requirements` raises for a tank are its fill-axis commands
followed by its drain-axis commands, at most one of each, and never both Fill and Drain. -/
theorem check_ctrl_requirements_commands_shape (w : World) (filling draining : Bool)
    (height : CFloat) (n : Nat) (tank : TankId) :
    commands tank w (check_ctrl_requirements w filling draining height n).1 =
      fillAxis (commands tank w (check_ctrl_requirements w filling draining height n).1) ++
      drainAxis (commands tank w (check_ctrl_requirements w filling draining height n).1) ∧
    (fillAxis (commands tank w
      (check_ctrl_requirements w filling draining height n).1)).length ≤ 1 ∧
    (drainAxis (commands tank w
      (check_ctrl_requirements w filling draining height n).1)).length ≤ 1 ∧
    ¬ (ValveCommand.Fill ∈ commands tank w
          (check_ctrl_requirements w filling draining height n).1 ∧
       ValveCommand.Drain ∈ commands tank w
          (check_ctrl_requirements w filling draining height n).1) := by
  have hnone : ∀ w1 : World, commands tank w w1 = [] →
      commands tank w w1 = fillAxis (commands tank w w1) ++ drainAxis (commands tank w w1) ∧
      (fillAxis (commands tank w w1)).length ≤ 1 ∧
      (drainAxis (commands tank w w1)).length ≤ 1 ∧
      ¬ (ValveCommand.Fill ∈ commands tank w w1 ∧ ValveCommand.Drain ∈ commands tank w w1) := by
    intro w1 e
    rw [e]
    simp [fillAxis, drainAxis]
  have hsame : ∀ t : TankId, n = t.num →
      commands tank w (check_ctrl_requirements w filling draining height n).1 =
        fillAxis (commands tank w (check_ctrl_requirements w filling draining height n).1) ++
        drainAxis (commands tank w (check_ctrl_requirements w filling draining height n).1) ∧
      (fillAxis (commands tank w
        (check_ctrl_requirements w filling draining height n).1)).length ≤ 1 ∧
      (drainAxis (commands tank w
        (check_ctrl_requirements w filling draining height n).1)).length ≤ 1 ∧
      ¬ (ValveCommand.Fill ∈ commands tank w
            (check_ctrl_requirements w filling draining height n).1 ∧
         ValveCommand.Drain ∈ commands tank w
            (check_ctrl_requirements w filling draining height n).1) := by
    intro t ht
    subst ht
    by_cases htt : tank = t
    · subst htt
      rw [commands_check_ctrl_requirements_parts]
      have hx : ¬ (height.le (.fin 10) = true ∧ height.ge (.fin 60) = true) :=
        fun hh => CFloat.not_le_and_ge hh.1 hh.2 (by norm_num)
      cases filling <;> cases draining <;>
        simp only [if_true, if_false, Bool.false_eq_true] <;> split_ifs <;>
        simp_all [fillAxis, drainAxis, ValveCommand.isFillAxis, ValveCommand.isDrainAxis]
    · exact hnone _ (commands_check_ctrl_requirements_cross w filling draining height tank t htt)
  by_cases h1 : n = 1
  · exact hsame .Tank1 h1
  · by_cases h2 : n = 2
    · exact hsame .Tank2 h2
    · apply hnone
      rw [check_ctrl_requirements_other w filling draining height n h1 h2]
      simp [commands, newEvents]

/-- Witness for C2: tank 1 right after its control task started, filling, height 22. -/
theorem check_ctrl_requirements_fill_axis_witness :
    (startedWorld .Tank1).sem TankId.Tank1.fill_sem ≠ .NULL ∧
    (startedWorld .Tank1).sem TankId.Tank1.stop_fill_sem ≠ .NULL ∧
    fillAxis (commands .Tank1 (startedWorld .Tank1)
      (check_ctrl_requirements (startedWorld .Tank1) true false (.fin 22) TankId.Tank1.num).1)
        = [.StopFill] ∧
    (check_ctrl_requirements (startedWorld .Tank1) true false (.fin 22) TankId.Tank1.num).2.1
        = false :=
  ⟨by decide, by decide,
    (check_ctrl_requirements_fill_axis (startedWorld .Tank1) true false (.fin 22) .Tank1
      (by decide) (by decide)).1 ⟨rfl, by decide⟩⟩

/-- Witness for C3: tank 2 right after its control task started, idle, height 61. -/
theorem check_ctrl_requirements_drain_axis_witness :
    (startedWorld .Tank2).sem TankId.Tank2.drain_sem ≠ .NULL ∧
    (startedWorld .Tank2).sem TankId.Tank2.stop_drain_sem ≠ .NULL ∧
    drainAxis (commands .Tank2 (startedWorld .Tank2)
      (check_ctrl_requirements (startedWorld .Tank2) false false (.fin 61) TankId.Tank2.num).1)
        = [.Drain] ∧
    (check_ctrl_requirements (startedWorld .Tank2) false false (.fin 61) TankId.Tank2.num).2.2
        = true :=
  ⟨by decide, by decide,
    (check_ctrl_requirements_drain_axis (startedWorld .Tank2) false false (.fin 61) .Tank2
      (by decide) (by decide)).2.1 ⟨rfl, by decide⟩⟩

/-- Witness for C4 (amended): tank 2 right after its control task started. -/
theorem scenario1_sequence_witness :
    channelsPresent .Tank2 (startedWorld .Tank2) ∧
    (feed .Tank2 (startedWorld .Tank2) false false
        [.fin 8, .fin 15, .fin 22, .fin 55, .fin 48]).2
      = [[.Fill], [], [.StopFill], [], []] ∧
    (feed .Tank2 (startedWorld .Tank2) false false
        [.fin 8, .fin 15, .fin 22, .fin 65, .fin 48]).2
      = [[.Fill], [], [.StopFill], [.Drain], [.StopDrain]] :=
  ⟨by decide, scenario1_sequence .Tank2 (startedWorld .Tank2) (by decide)⟩

theorem takeIfSet_fst (w : World) (s : Sem) :
    (takeIfSet w s).1 = decide (w.sem s = .live true) := by
  unfold takeIfSet xSemaphoreTake
  rcases hs : w.sem s with _ | b | _
  · simp
  · cases b <;> simp [hs]
  · simp [hs]

@[simp] theorem takeIfSet_gpio (w : World) (s : Sem) : (takeIfSet w s).2.gpio = w.gpio := by
  unfold takeIfSet xSemaphoreTake
  rcases hs : w.sem s with _ | b | _
  · simp
  · cases b <;> simp [hs]
  · simp [hs]

theorem takeIfSet_sem_of_ne (w : World) (s s1 : Sem) (hne : s1 ≠ s) :
    (takeIfSet w s).2.sem s1 = w.sem s1 := by
  unfold takeIfSet xSemaphoreTake
  rcases hs : w.sem s with _ | b | _
  · simp
  · cases b <;> simp [hs, Function.update_noteq hne]
  · simp [hs]

theorem takeIfSet_sem_not_pending (w : World) (s s1 : Sem) (hs1 : w.sem s1 ≠ .live true) :
    (takeIfSet w s).2.sem s1 ≠ .live true := by
  by_cases hne : s1 = s
  · subst hne
    unfold takeIfSet xSemaphoreTake
    rcases hs : w.sem s1 with _ | b | _
    · simp [hs]
    · cases b <;> simp_all
    · simp [hs]
  · rw [takeIfSet_sem_of_ne w s s1 hne]; exact hs1

/-- A measurement cycle: the two guarded takes, then the control part. -/
theorem meas_task_cycle_norm (tank : TankId) (w : World) (l : MeasLocals) (h : CFloat) :
    meas_task_cycle tank w l h =
      (let a := takeIfSet w tank.ctrl_on_sem
       let b := takeIfSet a.2 tank.ctrl_off_sem
       let c := if b.1 then false else (if a.1 then true else l.ctrl_on)
       if c then
         ((check_ctrl_requirements b.2 l.filling l.draining h tank.num).1,
          ⟨(check_ctrl_requirements b.2 l.filling l.draining h tank.num).2.1,
           (check_ctrl_requirements b.2 l.filling l.draining h tank.num).2.2, true⟩)
       else (b.2, ⟨false, false, false⟩)) := by
  cases tank <;>
    simp only [meas_task_cycle, t1_meas_task_cycle, t2_meas_task_cycle, takeIfSet,
      TankId.ctrl_on_sem, TankId.ctrl_off_sem, TankId.num] <;>
    split_ifs <;> simp_all

/-- The command semaphores after a call of `check_ctrl_requirements` that found them
empty: a token exactly where the flag changed. -/
theorem afterCheck_sem (w : World) (f d : Bool) (h : CFloat) (tank : TankId)
    (hfill : w.sem tank.fill_sem = .live false)
    (hsf : w.sem tank.stop_fill_sem = .live false)
    (hdr : w.sem tank.drain_sem = .live false)
    (hsd : w.sem tank.stop_drain_sem = .live false) :
    (check_ctrl_requirements w f d h tank.num).1.sem tank.fill_sem
      = .live (!f && (evaluate h f d).1) ∧
    (check_ctrl_requirements w f d h tank.num).1.sem tank.stop_fill_sem
      = .live (f && !(evaluate h f d).1) ∧
    (check_ctrl_requirements w f d h tank.num).1.sem tank.drain_sem
      = .live (!d && (evaluate h f d).2.1) ∧
    (check_ctrl_requirements w f d h tank.num).1.sem tank.stop_drain_sem
      = .live (d && !(evaluate h f d).2.1) ∧
    (check_ctrl_requirements w f d h tank.num).1.sem tank.delete_sem = w.sem tank.delete_sem ∧
    (check_ctrl_requirements w f d h tank.num).1.sem tank.ctrl_off_sem
      = w.sem tank.ctrl_off_sem := by
  rw [check_ctrl_requirements_norm]
  cases tank <;> cases f <;> cases d <;>
    by_cases ha : CFloat.ge h (.fin 20) = true <;>
    by_cases hb : CFloat.le h (.fin 10) = true <;>
    by_cases hc : CFloat.le h (.fin 50) = true <;>
    by_cases he : CFloat.ge h (.fin 60) = true <;>
    simp_all [evaluate, giveIfSet, xSemaphoreGive, TankId.fill_sem,
      TankId.stop_fill_sem, TankId.drain_sem, TankId.stop_drain_sem, TankId.delete_sem,
      TankId.ctrl_off_sem]

/-- A poll pass that finds on each command semaphore a token exactly when the matching flag
is to change brings the flags and the pins to the new values and leaves the semaphores
empty. -/
theorem poll_sync (tank : TankId) (w : World) (f d f1 d1 : Bool)
    (hfill : w.sem tank.fill_sem = .live (!f && f1))
    (hsf : w.sem tank.stop_fill_sem = .live (f && !f1))
    (hdr : w.sem tank.drain_sem = .live (!d && d1))
    (hsd : w.sem tank.stop_drain_sem = .live (d && !d1))
    (hdel : w.sem tank.delete_sem = .live false)
    (hg1 : w.gpio tank.fill_pin = f) (hg2 : w.gpio tank.drain_pin = d) :
    (level_ctrl_task_cycle tank w ⟨f, d, false⟩).2 = ⟨f1, d1, false⟩ ∧
    (level_ctrl_task_cycle tank w ⟨f, d, false⟩).1.gpio tank.fill_pin = f1 ∧
    (level_ctrl_task_cycle tank w ⟨f, d, false⟩).1.gpio tank.drain_pin = d1 ∧
    (level_ctrl_task_cycle tank w ⟨f, d, false⟩).1.sem tank.fill_sem = .live false ∧
    (level_ctrl_task_cycle tank w ⟨f, d, false⟩).1.sem tank.stop_fill_sem = .live false ∧
    (level_ctrl_task_cycle tank w ⟨f, d, false⟩).1.sem tank.drain_sem = .live false ∧
    (level_ctrl_task_cycle tank w ⟨f, d, false⟩).1.sem tank.stop_drain_sem = .live false ∧
    (level_ctrl_task_cycle tank w ⟨f, d, false⟩).1.sem tank.delete_sem = .live false ∧
    (level_ctrl_task_cycle tank w ⟨f, d, false⟩).1.sem tank.ctrl_off_sem
      = w.sem tank.ctrl_off_sem := by
  cases tank <;> cases f <;> cases d <;> cases f1 <;> cases d1 <;>
    simp_all [level_ctrl_task_cycle, t1_level_ctrl_task_cycle, t2_level_ctrl_task_cycle,
      xSemaphoreTake, handle_t1_ctrl_pins, handle_t2_ctrl_pins, gpio_put, TankId.fill_sem,
      TankId.stop_fill_sem, TankId.drain_sem, TankId.stop_drain_sem, TankId.delete_sem,
      TankId.ctrl_off_sem, TankId.fill_pin, TankId.drain_pin, GPIO14, GPIO15, GPIO16, GPIO17]

/-- What a measurement cycle leaves behind when it starts from empty command semaphores
with no control-off pending: the pins untouched, and on each command semaphore a token
exactly when the matching flag has changed. -/
theorem meas_sync (tank : TankId) (w : World) (l : MeasLocals) (h : CFloat)
    (hnb : ¬ (l.filling = true ∧ l.draining = true))
    (hoffl : l.ctrl_on = false → l.filling = false ∧ l.draining = false)
    (hfill : w.sem tank.fill_sem = .live false)
    (hsf : w.sem tank.stop_fill_sem = .live false)
    (hdr : w.sem tank.drain_sem = .live false)
    (hsd : w.sem tank.stop_drain_sem = .live false)
    (hdel : w.sem tank.delete_sem = .live false)
    (hoff : w.sem tank.ctrl_off_sem ≠ .live true) :
    (meas_task_cycle tank w l h).1.gpio = w.gpio ∧
    ¬ ((meas_task_cycle tank w l h).2.filling = true ∧
        (meas_task_cycle tank w l h).2.draining = true) ∧
    ((meas_task_cycle tank w l h).2.ctrl_on = false →
      (meas_task_cycle tank w l h).2.filling = false ∧
      (meas_task_cycle tank w l h).2.draining = false) ∧
    (meas_task_cycle tank w l h).1.sem tank.fill_sem
      = .live (!l.filling && (meas_task_cycle tank w l h).2.filling) ∧
    (meas_task_cycle tank w l h).1.sem tank.stop_fill_sem
      = .live (l.filling && !(meas_task_cycle tank w l h).2.filling) ∧
    (meas_task_cycle tank w l h).1.sem tank.drain_sem
      = .live (!l.draining && (meas_task_cycle tank w l h).2.draining) ∧
    (meas_task_cycle tank w l h).1.sem tank.stop_drain_sem
      = .live (l.draining && !(meas_task_cycle tank w l h).2.draining) ∧
    (meas_task_cycle tank w l h).1.sem tank.delete_sem = .live false ∧
    (meas_task_cycle tank w l h).1.sem tank.ctrl_off_sem ≠ .live true := by
  have hb1 : (takeIfSet (takeIfSet w tank.ctrl_on_sem).2 tank.ctrl_off_sem).1 = false := by
    rw [takeIfSet_fst]
    simpa using takeIfSet_sem_not_pending w tank.ctrl_on_sem tank.ctrl_off_sem hoff
  have hkeep : ∀ s, s ≠ tank.ctrl_on_sem → s ≠ tank.ctrl_off_sem →
      (takeIfSet (takeIfSet w tank.ctrl_on_sem).2 tank.ctrl_off_sem).2.sem s = w.sem s := by
    intro s h1 h2
    rw [takeIfSet_sem_of_ne _ _ _ h2, takeIfSet_sem_of_ne _ _ _ h1]
  have hoff1 : (takeIfSet (takeIfSet w tank.ctrl_on_sem).2 tank.ctrl_off_sem).2.sem
      tank.ctrl_off_sem ≠ .live true :=
    takeIfSet_sem_not_pending _ _ _ (takeIfSet_sem_not_pending _ _ _ hoff)
  have k1 := hkeep tank.fill_sem (by cases tank <;> decide) (by cases tank <;> decide)
  have k2 := hkeep tank.stop_fill_sem (by cases tank <;> decide) (by cases tank <;> decide)
  have k3 := hkeep tank.drain_sem (by cases tank <;> decide) (by cases tank <;> decide)
  have k4 := hkeep tank.stop_drain_sem (by cases tank <;> decide) (by cases tank <;> decide)
  have k5 := hkeep tank.delete_sem (by cases tank <;> decide) (by cases tank <;> decide)
  rw [hfill] at k1; rw [hsf] at k2; rw [hdr] at k3; rw [hsd] at k4; rw [hdel] at k5
  rw [meas_task_cycle_norm]
  simp only [hb1, Bool.false_eq_true, if_false]
  by_cases hc : (if (takeIfSet w tank.ctrl_on_sem).1 = true then true else l.ctrl_on) = true
  · rw [if_pos hc]
    obtain ⟨e1, e2, e3, e4, e5, e6⟩ := afterCheck_sem
      (takeIfSet (takeIfSet w tank.ctrl_on_sem).2 tank.ctrl_off_sem).2 l.filling l.draining h
      tank k1 k2 k3 k4
    have hfl := check_ctrl_requirements_flags
      (takeIfSet (takeIfSet w tank.ctrl_on_sem).2 tank.ctrl_off_sem).2 l.filling l.draining h tank
    have hev := evaluate_not_both h l.filling l.draining hnb
    have hfl1 := congrArg Prod.fst hfl
    have hfl2 := congrArg Prod.snd hfl
    simp only at hfl1 hfl2
    refine ⟨?_, ?_, ?_, ?_, ?_, ?_, ?_, ?_, ?_⟩
    · rw [check_ctrl_requirements_gpio]; simp
    · simpa [hfl1, hfl2] using hev
    · simp
    · simpa [hfl1] using e1
    · simpa [hfl1] using e2
    · simpa [hfl2] using e3
    · simpa [hfl2] using e4
    · rw [e5]; exact k5
    · rw [e6]; exact hoff1
  · rw [if_neg hc]
    have hl : l.ctrl_on = false := by
      by_contra hx
      apply hc
      split_ifs <;> simp_all
    obtain ⟨hf0, hd0⟩ := hoffl hl
    refine ⟨by simp, by simp, by simp, ?_, ?_, ?_, ?_, k5, hoff1⟩ <;> simp [hf0, hd0, k1, k2, k3, k4]

/-- A measurement cycle followed by a poll pass keeps the two tasks in agreement. -/
theorem synced_meas_poll (tank : TankId) (s : World × MeasLocals × CtrlTask)
    (hs : synced tank s) (h : CFloat) :
    synced tank (sysStep tank (sysStep tank s (.meas h)) .poll) := by
  obtain ⟨w, l, ⟨f, d, del⟩⟩ := s
  obtain ⟨h1, h2, h3, h4, h5, h6, h7, h8, h9, h10, h11, h12, h13⟩ := hs
  simp only at h1 h2 h3 h4 h5 h6 h7 h8 h9 h10 h11 h12 h13
  subst h1 h2 h3
  obtain ⟨m1, m2, m3, m4, m5, m6, m7, m8, m9⟩ := meas_sync tank w l h h4 h5 h8 h9 h10 h11 h12 h13
  obtain ⟨p1, p2, p3, p4, p5, p6, p7, p8, p9⟩ := poll_sync tank (meas_task_cycle tank w l h).1
    l.filling l.draining (meas_task_cycle tank w l h).2.filling
    (meas_task_cycle tank w l h).2.draining m4 m5 m6 m7 m8 (by rw [m1]; exact h6)
    (by rw [m1]; exact h7)
  simp only [sysStep, synced]
  rw [p1]
  refine ⟨rfl, rfl, rfl, m2, m3, p2, p3, p4, p5, p6, p7, p8, ?_⟩
  rw [p9]; exact m9

/-- Agreement is kept by the alternating schedule. -/
theorem synced_alternate (tank : TankId) (heights : List CFloat)
    (s : World × MeasLocals × CtrlTask) (hs : synced tank s) :
    synced tank (sysRun tank s (alternate heights)) := by
  induction heights generalizing s with
  | nil => simpa [sysRun, alternate] using hs
  | cons h rest ih =>
    have := ih (sysStep tank (sysStep tank s (.meas h)) .poll) (synced_meas_poll tank s hs h)
    simpa [sysRun, alternate] using this

/-- A poll pass of a live level control task is its three blocks in sequence. -/
theorem level_ctrl_task_cycle_stages (tank : TankId) (w : World) (f d : Bool) :
    level_ctrl_task_cycle tank w ⟨f, d, false⟩ =
      deleteStage tank (drainStage tank (fillStage tank w f d).1 (fillStage tank w f d).2 d).1
        (fillStage tank w f d).2
        (drainStage tank (fillStage tank w f d).1 (fillStage tank w f d).2 d).2 := by
  cases tank <;> rfl

/-- The first block of a poll pass when both fill-axis semaphores exist. -/
theorem fillStage_live (tank : TankId) (w : World) (f d bf bsf : Bool)
    (hfill : w.sem tank.fill_sem = .live bf) (hsf : w.sem tank.stop_fill_sem = .live bsf) :
    (fillStage tank w f d).2 = (if f then !bsf else bf) ∧
    (fillStage tank w f d).1.log = w.log ++
      (if f then
          Event.take tank.stop_fill_sem bsf ::
            (if bsf then [.gpio_put tank.fill_pin false, .gpio_put tank.drain_pin d] else [])
        else
          Event.take tank.fill_sem bf ::
            (if bf then [.gpio_put tank.fill_pin true, .gpio_put tank.drain_pin d] else [])) ∧
    (∀ s, s ≠ tank.fill_sem → s ≠ tank.stop_fill_sem →
      (fillStage tank w f d).1.sem s = w.sem s) := by
  cases tank <;> cases f <;> cases bf <;> cases bsf <;>
    simp_all [fillStage, xSemaphoreTake, handle_ctrl_pins, handle_t1_ctrl_pins,
      handle_t2_ctrl_pins, gpio_put, TankId.fill_sem, TankId.stop_fill_sem,
      TankId.fill_pin, TankId.drain_pin]

/-- The second block of a poll pass when both drain-axis semaphores exist. -/
theorem drainStage_live (tank : TankId) (w : World) (f d bd bsd : Bool)
    (hdr : w.sem tank.drain_sem = .live bd) (hsd : w.sem tank.stop_drain_sem = .live bsd) :
    (drainStage tank w f d).2 = (if d then !bsd else bd) ∧
    (drainStage tank w f d).1.log = w.log ++
      (if d then
          Event.take tank.stop_drain_sem bsd ::
            (if bsd then [.gpio_put tank.fill_pin f, .gpio_put tank.drain_pin false] else [])
        else
          Event.take tank.drain_sem bd ::
            (if bd then [.gpio_put tank.fill_pin f, .gpio_put tank.drain_pin true] else [])) ∧
    (∀ s, s ≠ tank.drain_sem → s ≠ tank.stop_drain_sem →
      (drainStage tank w f d).1.sem s = w.sem s) := by
  cases tank <;> cases d <;> cases bd <;> cases bsd <;>
    simp_all [drainStage, xSemaphoreTake, handle_ctrl_pins, handle_t1_ctrl_pins,
      handle_t2_ctrl_pins, gpio_put, TankId.drain_sem, TankId.stop_drain_sem,
      TankId.fill_pin, TankId.drain_pin]

/-- The third block of a poll pass when the delete signal is pending. -/
theorem deleteStage_pending (tank : TankId) (w : World) (f d : Bool)
    (hdel : w.sem tank.delete_sem = .live true) :
    (deleteStage tank w f d).2 = ⟨f, d, true⟩ ∧
    (deleteStage tank w f d).1.log = w.log ++
      [.take tank.delete_sem true, .delete tank.delete_sem, .delete tank.fill_sem,
        .delete tank.stop_fill_sem, .delete tank.drain_sem, .delete tank.stop_drain_sem,
        .gpio_put tank.fill_pin false, .gpio_put tank.drain_pin false, .vTaskDelete] ∧
    (deleteStage tank w f d).1.gpio tank.fill_pin = false ∧
    (deleteStage tank w f d).1.gpio tank.drain_pin = false := by
  cases tank <;>
    simp_all [deleteStage, xSemaphoreTake, deinit_level_ctrl_task, deinit_t1_level_ctrl_task,
      deinit_t2_level_ctrl_task, vSemaphoreDelete, vTaskDelete, handle_t1_ctrl_pins,
      handle_t2_ctrl_pins, gpio_put, TankId.delete_sem, TankId.fill_sem, TankId.stop_fill_sem,
      TankId.drain_sem, TankId.stop_drain_sem, TankId.fill_pin, TankId.drain_pin,
      GPIO14, GPIO15, GPIO16, GPIO17]

/-- A level control task that has deleted itself takes no further step. -/
theorem level_ctrl_task_cycle_deleted (tank : TankId) (w : World) (t : CtrlTask)
    (ht : t.deleted = true) : level_ctrl_task_cycle tank w t = (w, t) := by
  cases tank <;>
    simp [level_ctrl_task_cycle, t1_level_ctrl_task_cycle, t2_level_ctrl_task_cycle, ht]

@[simp] theorem xSemaphoreTake_sem_eq_NULL (w : World) (s s1 : Sem) :
    (xSemaphoreTake w s).2.sem s1 = .NULL ↔ w.sem s1 = .NULL := by
  unfold xSemaphoreTake
  rcases hs : w.sem s with _ | b | _
  · simp
  · cases b
    · simp
    · by_cases h1 : s1 = s
      · subst h1; simp [hs]
      · simp [Function.update_noteq h1]
  · simp

/-- C10, counterexample. The enable task, Enabled after a notification handled with the
line high, handles a second notification with the line still high by creating both level
control tasks again and sending control-on to both measurement loops; and still Disabled
after boot, it handles a notification with the line low by sending control-off to both
measurement loops. -/
theorem enable_task_acts_on_repeated_level :
    (supervisorEnabled [true] = true ∧
      newEvents (gpio2_cb (supervisorRun [true])) (supervisorRun [true, true]) =
        [.take .ctrl_enable_sem true, .xTaskCreate .t1_level_ctrl_task,
         .xTaskCreate .t2_level_ctrl_task, .give .ctrl_on_sem_1, .give .ctrl_on_sem_2]) ∧
    (supervisorEnabled [] = false ∧
      newEvents (gpio2_cb (supervisorRun [])) (supervisorRun [false]) =
        [.take .ctrl_enable_sem true, .give .ctrl_off_sem_1, .give .ctrl_off_sem_2]) := by
  decide

/-- C10, amended. Whenever the enable task handles an edge notification it acts on the
resampled line level alone, whatever it did before: line high, it creates both level
control tasks and sends control-on to both measurement loops; line low, it sends delete on
each delete handle that is set and control-off to both measurement loops. -/
theorem enable_task_acts_on_level_alone (w : World) (level : Bool)
    (hedge : w.sem .ctrl_enable_sem = .live true) :
    newEvents w (level_ctrl_enable_task_cycle w level) =
      Event.take .ctrl_enable_sem true ::
        (if level then
          [.xTaskCreate .t1_level_ctrl_task, .xTaskCreate .t2_level_ctrl_task,
           .give .ctrl_on_sem_1, .give .ctrl_on_sem_2]
         else
          (if w.sem .delete_t1_ctrl_sem ≠ .NULL then [Event.give .delete_t1_ctrl_sem] else []) ++
          (if w.sem .delete_t2_ctrl_sem ≠ .NULL then [Event.give .delete_t2_ctrl_sem] else []) ++
          [.give .ctrl_off_sem_1, .give .ctrl_off_sem_2]) := by
  apply newEvents_of_log
  have htake : (xSemaphoreTake w .ctrl_enable_sem).2.log = w.log ++ [.take .ctrl_enable_sem true] := by
    simp [xSemaphoreTake, hedge]
  cases level
  · simp [level_ctrl_enable_task_cycle, hedge, level_ctrl_enable_task_handle]
    split_ifs <;> simp_all
  · simp [level_ctrl_enable_task_cycle, hedge, level_ctrl_enable_task_handle,
      t1_level_ctrl_task_init, t2_level_ctrl_task_init, htake]

/-- Witness for C10 (amended): a second notification with the line high. -/
theorem enable_task_acts_on_level_alone_witness :
    (gpio2_cb (supervisorRun [true])).sem .ctrl_enable_sem = .live true ∧
    newEvents (gpio2_cb (supervisorRun [true]))
        (level_ctrl_enable_task_cycle (gpio2_cb (supervisorRun [true])) true) =
      [.take .ctrl_enable_sem true, .xTaskCreate .t1_level_ctrl_task,
       .xTaskCreate .t2_level_ctrl_task, .give .ctrl_on_sem_1, .give .ctrl_on_sem_2] :=
  ⟨by decide, enable_task_acts_on_level_alone (gpio2_cb (supervisorRun [true])) true (by decide)⟩

theorem xSemaphoreGive_sem_of_ne (w : World) (s s1 : Sem) (hne : s1 ≠ s) :
    (xSemaphoreGive w s).sem s1 = w.sem s1 := by
  unfold xSemaphoreGive
  split <;> simp [Function.update_noteq hne]

theorem giveIfSet_sem_of_ne (w : World) (s s1 : Sem) (hne : s1 ≠ s) :
    (giveIfSet w s).sem s1 = w.sem s1 := by
  unfold giveIfSet
  split_ifs
  · exact xSemaphoreGive_sem_of_ne w s s1 hne
  · rfl

/-- C11. Whenever the enable task handles an edge notification with the line high, the calls
it makes are, in this order: create the tank 1 level control task, create the tank 2 level
control task, give control-on to measurement loop 1, give control-on to measurement loop 2,
and nothing else; no semaphore other than the two control-on ones changes (so no delete and
no control-off is sent) and no pin is written. -/
theorem level_ctrl_enable_task_handle_high (w : World) :
    newEvents w (level_ctrl_enable_task_handle w true) =
      [.xTaskCreate .t1_level_ctrl_task, .xTaskCreate .t2_level_ctrl_task,
       .give .ctrl_on_sem_1, .give .ctrl_on_sem_2] ∧
    (∀ s, s ≠ .ctrl_on_sem_1 → s ≠ .ctrl_on_sem_2 →
      (level_ctrl_enable_task_handle w true).sem s = w.sem s) ∧
    (level_ctrl_enable_task_handle w true).gpio = w.gpio := by
  refine ⟨?_, ?_, ?_⟩
  · apply newEvents_of_log
    simp [level_ctrl_enable_task_handle, t1_level_ctrl_task_init, t2_level_ctrl_task_init]
  · intro s h1 h2
    have e : level_ctrl_enable_task_handle w true =
        xSemaphoreGive (xSemaphoreGive
          (t2_level_ctrl_task_init (t1_level_ctrl_task_init w)) .ctrl_on_sem_1)
          .ctrl_on_sem_2 := by
      simp [level_ctrl_enable_task_handle]
    rw [e, xSemaphoreGive_sem_of_ne _ _ _ h2, xSemaphoreGive_sem_of_ne _ _ _ h1]
    rfl
  · simp [level_ctrl_enable_task_handle, t1_level_ctrl_task_init, t2_level_ctrl_task_init]

/-- The low-level branch of the enable task in terms of guarded gives. -/
theorem level_ctrl_enable_task_handle_low_norm (w : World) :
    level_ctrl_enable_task_handle w false =
      xSemaphoreGive (xSemaphoreGive
        (giveIfSet (giveIfSet w .delete_t1_ctrl_sem) .delete_t2_ctrl_sem)
        .ctrl_off_sem_1) .ctrl_off_sem_2 := by
  simp [level_ctrl_enable_task_handle, giveIfSet]

/-- C12. Whenever the enable task handles an edge notification with the line low, the calls
it makes are: give delete to tank 1 and to tank 2, each only when that delete handle is
set, then give control-off to both measurement loops; it creates no task and gives no
control-on, the control-on semaphores are unchanged and no pin is written. -/
theorem level_ctrl_enable_task_handle_low (w : World) :
    newEvents w (level_ctrl_enable_task_handle w false) =
      (if w.sem .delete_t1_ctrl_sem ≠ .NULL then [Event.give .delete_t1_ctrl_sem] else []) ++
      (if w.sem .delete_t2_ctrl_sem ≠ .NULL then [Event.give .delete_t2_ctrl_sem] else []) ++
      [.give .ctrl_off_sem_1, .give .ctrl_off_sem_2] ∧
    (∀ e ∈ newEvents w (level_ctrl_enable_task_handle w false),
      (∀ f, e ≠ .xTaskCreate f) ∧ e ≠ .give .ctrl_on_sem_1 ∧ e ≠ .give .ctrl_on_sem_2) ∧
    (level_ctrl_enable_task_handle w false).sem .ctrl_on_sem_1 = w.sem .ctrl_on_sem_1 ∧
    (level_ctrl_enable_task_handle w false).sem .ctrl_on_sem_2 = w.sem .ctrl_on_sem_2 ∧
    (level_ctrl_enable_task_handle w false).gpio = w.gpio := by
  have hlog : newEvents w (level_ctrl_enable_task_handle w false) =
      (if w.sem .delete_t1_ctrl_sem ≠ .NULL then [Event.give .delete_t1_ctrl_sem] else []) ++
      (if w.sem .delete_t2_ctrl_sem ≠ .NULL then [Event.give .delete_t2_ctrl_sem] else []) ++
      [.give .ctrl_off_sem_1, .give .ctrl_off_sem_2] := by
    apply newEvents_of_log
    rw [level_ctrl_enable_task_handle_low_norm]
    simp [giveIfSet_log]
  refine ⟨hlog, ?_, ?_, ?_, ?_⟩
  · intro e he
    rw [hlog] at he
    have hcases : e = .give .delete_t1_ctrl_sem ∨ e = .give .delete_t2_ctrl_sem ∨
        e = .give .ctrl_off_sem_1 ∨ e = .give .ctrl_off_sem_2 := by
      split_ifs at he <;> simp at he <;> tauto
    rcases hcases with h | h | h | h <;> subst h <;> simp
  · rw [level_ctrl_enable_task_handle_low_norm]
    simp [xSemaphoreGive_sem_of_ne, giveIfSet_sem_of_ne]
  · rw [level_ctrl_enable_task_handle_low_norm]
    simp [xSemaphoreGive_sem_of_ne, giveIfSet_sem_of_ne]
  · rw [level_ctrl_enable_task_handle_low_norm]
    simp

/-- C13, the code at the failing input. After both level control tasks have torn down, the
handles of their fill, stop-fill, drain, stop-drain and delete semaphores are not `NULL`
(they still hold the deleted semaphores), so the presence checks pass: a call of
`check_ctrl_requirements` whose threshold fires gives on the deleted semaphore, and the
enable task handling a further falling edge gives on both deleted delete semaphores. -/
theorem torn_down_channels_still_operated :
    (∀ tank : TankId, ∀ s ∈ [tank.fill_sem, tank.stop_fill_sem, tank.drain_sem,
        tank.stop_drain_sem, tank.delete_sem], tornDownWorld.sem s = .freed) ∧
    newEvents tornDownWorld
      (check_ctrl_requirements tornDownWorld false false (.fin 5) TANK_1).1
        = [.give .fill_t1_sem] ∧
    newEvents tornDownWorld
      (check_ctrl_requirements tornDownWorld false false (.fin 65) TANK_2).1
        = [.give .drain_t2_sem] ∧
    newEvents (gpio2_cb tornDownWorld)
      (level_ctrl_enable_task_cycle (gpio2_cb tornDownWorld) false)
        = [.take .ctrl_enable_sem true, .give .delete_t1_ctrl_sem, .give .delete_t2_ctrl_sem,
           .give .ctrl_off_sem_1, .give .ctrl_off_sem_2] := by
  refine ⟨?_, by decide, by decide, by decide⟩
  intro tank
  cases tank <;> decide

/-- C14, counterexample. Tank 1, control enabled before its level control task has created
the semaphores: at height 5 the Fill signal is dropped (handle `NULL`) but `filling` is set;
on the next call, with the channels now present and the height still 5, no command is
raised. -/
theorem dropped_fill_not_raised_again :
    (level_ctrl_enable_task_start World.boot).sem .fill_t1_sem = .NULL ∧
    commands .Tank1 (level_ctrl_enable_task_start World.boot)
      (check_ctrl_requirements (level_ctrl_enable_task_start World.boot)
        false false (.fin 5) TANK_1).1 = [] ∧
    (check_ctrl_requirements (level_ctrl_enable_task_start World.boot)
        false false (.fin 5) TANK_1).2 = (true, false) ∧
    channelsPresent .Tank1
      (t1_level_ctrl_task_start (check_ctrl_requirements
        (level_ctrl_enable_task_start World.boot) false false (.fin 5) TANK_1).1).1 ∧
    commands .Tank1
      (t1_level_ctrl_task_start (check_ctrl_requirements
        (level_ctrl_enable_task_start World.boot) false false (.fin 5) TANK_1).1).1
      (check_ctrl_requirements
        (t1_level_ctrl_task_start (check_ctrl_requirements
          (level_ctrl_enable_task_start World.boot) false false (.fin 5) TANK_1).1).1
        true false (.fin 5) TANK_1).1 = [] := by
  decide

/-- C14, amended. For each tank: when `check_ctrl_requirements` meets not filling and
`height <= 10` while the fill handle is `NULL`, it raises no fill-axis command and still
sets `filling`; from then on, in any world (channel present or not), a call with `filling`
set and a height below 20 raises no fill-axis command and keeps `filling`: the dropped Fill
is not raised again. -/
theorem dropped_fill_latches_filling (tank : TankId) (w : World) (draining : Bool)
    (height : CFloat) (habsent : w.sem tank.fill_sem = .NULL)
    (hlow : height.le (.fin 10) = true) :
    fillAxis (commands tank w (check_ctrl_requirements w false draining height tank.num).1) = [] ∧
    (check_ctrl_requirements w false draining height tank.num).2.1 = true ∧
    (∀ (w2 : World) (d2 : Bool) (h2 : CFloat), h2.ge (.fin 20) = false →
      fillAxis (commands tank w2 (check_ctrl_requirements w2 true d2 h2 tank.num).1) = [] ∧
      (check_ctrl_requirements w2 true d2 h2 tank.num).2.1 = true) := by
  refine ⟨?_, ?_, ?_⟩
  · rw [commands_check_ctrl_requirements_parts]
    cases draining <;> simp [hlow, habsent, fillAxis] <;> intro a _ _ ha <;> subst ha <;> rfl
  · rw [check_ctrl_requirements_flags]
    simp [evaluate, hlow]
  · intro w2 d2 h2 hh
    refine ⟨?_, ?_⟩
    · rw [commands_check_ctrl_requirements_parts]
      cases d2 <;> simp [hh, fillAxis] <;> intro a _ _ ha <;> subst ha <;> rfl
    · rw [check_ctrl_requirements_flags]
      simp [evaluate, hh]

/-- The call logged by a guarded take. -/
theorem takeIfSet_log (w : World) (s : Sem) :
    (takeIfSet w s).2.log = w.log ++
      (if w.sem s ≠ .NULL then [Event.take s (decide (w.sem s = .live true))] else []) := by
  unfold takeIfSet xSemaphoreTake
  rcases hs : w.sem s with _ | b | _
  · simp
  · cases b <;> simp [hs]
  · simp [hs]

/-- C15. For each tank, every measurement-loop state (in particular `ctrl_on = true`,
`filling = true`) and every height, a cycle that finds the control-off signal pending ends
with `ctrl_on = false`, `filling = false`, `draining = false`; the only calls it makes are
the take on control-on (when that handle is set) and the take on control-off, so it raises
no valve command. -/
theorem meas_task_cycle_control_off (tank : TankId) (w : World) (l : MeasLocals)
    (height : CFloat) (hoff : w.sem tank.ctrl_off_sem = .live true) :
    (meas_task_cycle tank w l height).2 = ⟨false, false, false⟩ ∧
    newEvents w (meas_task_cycle tank w l height).1 =
      (if w.sem tank.ctrl_on_sem ≠ .NULL
        then [Event.take tank.ctrl_on_sem (decide (w.sem tank.ctrl_on_sem = .live true))]
        else []) ++ [.take tank.ctrl_off_sem true] ∧
    commands tank w (meas_task_cycle tank w l height).1 = [] := by
  have hne : tank.ctrl_off_sem ≠ tank.ctrl_on_sem := by cases tank <;> decide
  have hoff1 : (takeIfSet w tank.ctrl_on_sem).2.sem tank.ctrl_off_sem = .live true := by
    rw [takeIfSet_sem_of_ne _ _ _ hne]; exact hoff
  have hb1 : (takeIfSet (takeIfSet w tank.ctrl_on_sem).2 tank.ctrl_off_sem).1 = true := by
    rw [takeIfSet_fst]; simp [hoff1]
  have hlog : newEvents w (meas_task_cycle tank w l height).1 =
      (if w.sem tank.ctrl_on_sem ≠ .NULL
        then [Event.take tank.ctrl_on_sem (decide (w.sem tank.ctrl_on_sem = .live true))]
        else []) ++ [.take tank.ctrl_off_sem true] := by
    apply newEvents_of_log
    rw [meas_task_cycle_norm]
    simp only [hb1, if_true, Bool.false_eq_true, if_false]
    rw [takeIfSet_log, takeIfSet_log, hoff1]
    simp
  refine ⟨?_, hlog, ?_⟩
  · rw [meas_task_cycle_norm]
    simp only [hb1, if_true, Bool.false_eq_true, if_false]
  · unfold commands
    rw [hlog]
    split_ifs <;> simp [Event.command]

/-- A left fold that accumulates a sum. -/
theorem foldl_add_eq_sum {α : Type} (l : List α) (f : α → ℚ) (a : ℚ) :
    l.foldl (fun acc i => acc + f i) a = a + (l.map f).sum := by
  induction l generalizing a with
  | nil => simp
  | cons x t ih => simp [ih, add_assoc]

/-- One sampling step from a cursor inside the window. -/
theorem window_sample_eq (s : MeasWindow) (p : ℚ) (h : s.avg_window_index < 20) :
    window_sample s p =
      some (⟨Function.update s.avg_window ⟨s.avg_window_index, h⟩ p,
              (s.avg_window_index + 1) % 20⟩,
            (∑ i, Function.update s.avg_window ⟨s.avg_window_index, h⟩ p i) / 20) := by
  unfold window_sample
  rw [dif_pos h]
  have h20 : AVG_WINDOW_WIDTH_FLOAT = 20 := by norm_num [AVG_WINDOW_WIDTH_FLOAT]
  simp only [foldl_add_eq_sum, zero_add, ← Fin.sum_univ_def, AVG_WINDOW_WIDTH, h20]
  congr 3
  split_ifs <;> omega

/-- From a cursor inside the window every run of samples goes through, with a cursor that
stays inside the window and advances by one modulo 20 per sample. -/
theorem window_samples_cursor (ps : List ℚ) (s : MeasWindow) (h : s.avg_window_index < 20) :
    ∃ s1 avgs, window_samples s ps = some (s1, avgs) ∧ avgs.length = ps.length ∧
      s1.avg_window_index = (s.avg_window_index + ps.length) % 20 ∧
      s1.avg_window_index < 20 := by
  induction ps generalizing s with
  | nil => exact ⟨s, [], rfl, rfl, by simp [Nat.mod_eq_of_lt h], h⟩
  | cons p t ih =>
    obtain ⟨s2, avgs, e, hl, hi, hlt⟩ := ih
      ⟨Function.update s.avg_window ⟨s.avg_window_index, h⟩ p, (s.avg_window_index + 1) % 20⟩
      (Nat.mod_lt _ (by norm_num))
    refine ⟨s2, ((∑ i, Function.update s.avg_window ⟨s.avg_window_index, h⟩ p i) / 20) :: avgs,
      ?_, by simp [hl], ?_, hlt⟩
    · simp only [window_samples, window_sample_eq s p h, e]
    · rw [hi]; simp only [List.length_cons]; omega

/-- C18. A sampling cycle that starts with the cursor below 20 stores the new pressure in the
slot at the cursor, leaves the other 19 slots unchanged and sets the cursor to
`(cursor + 1) mod 20` (0 after 19), which is below 20; and from the initial window every run
of cycles goes through (no store outside the array) with the cursor below 20 at the end. -/
theorem window_sample_ring (s : MeasWindow) (p : ℚ) (h : s.avg_window_index < 20) :
    ∃ s1 avg, window_sample s p = some (s1, avg) ∧
      s1.avg_window ⟨s.avg_window_index, h⟩ = p ∧
      (∀ i : Fin 20, i.val ≠ s.avg_window_index → s1.avg_window i = s.avg_window i) ∧
      s1.avg_window_index = (s.avg_window_index + 1) % 20 ∧
      (s.avg_window_index = 19 → s1.avg_window_index = 0) ∧
      s1.avg_window_index < 20 ∧
      (∀ ps : List ℚ, ∃ s2 avgs, window_samples MeasWindow.init ps = some (s2, avgs) ∧
        s2.avg_window_index = ps.length % 20 ∧ s2.avg_window_index < 20) := by
  refine ⟨_, _, window_sample_eq s p h, ?_, ?_, rfl, ?_, ?_, ?_⟩
  · simp
  · intro i hi
    have : i ≠ ⟨s.avg_window_index, h⟩ := fun e => hi (by rw [e])
    simp [Function.update_noteq this]
  · intro e; simp [e]
  · exact Nat.mod_lt _ (by norm_num)
  · intro ps
    obtain ⟨s2, avgs, e, _, hi, hlt⟩ := window_samples_cursor ps MeasWindow.init (by decide)
    exact ⟨s2, avgs, e, by simpa [MeasWindow.init] using hi, hlt⟩

/-- Constant samples: once the `k` slots behind the cursor hold `P`, the average computed
at the sample that brings this count to 20 or more is `P`. -/
theorem window_samples_const (P : ℚ) (m : Nat) (s : MeasWindow) (k : Nat)
    (h : s.avg_window_index < 20)
    (hk : ∀ j : Nat, j < k → ∀ i : Fin 20, (i.val + j + 1) % 20 = s.avg_window_index →
      s.avg_window i = P) :
    ∃ s1 avgs, window_samples s (List.replicate m P) = some (s1, avgs) ∧
      avgs.length = m ∧
      (∀ i : Nat, i < m → 20 ≤ k + i + 1 → avgs[i]? = some P) ∧
      (20 ≤ k + m → ∀ i : Fin 20, s1.avg_window i = P) := by
  induction m generalizing s k with
  | zero =>
    refine ⟨s, [], rfl, rfl, by simp, ?_⟩
    intro hk20 i
    have hj : (i.val + ((s.avg_window_index + 20 - i.val - 1) % 20) + 1) % 20
        = s.avg_window_index := by
      have := i.isLt
      omega
    exact hk ((s.avg_window_index + 20 - i.val - 1) % 20) (by omega) i hj
  | succ m ih =>
    have hk1 : ∀ j : Nat, j < k + 1 → ∀ i : Fin 20,
        (i.val + j + 1) % 20 = (s.avg_window_index + 1) % 20 →
        Function.update s.avg_window ⟨s.avg_window_index, h⟩ P i = P := by
      intro j hj i hi
      by_cases e : i = ⟨s.avg_window_index, h⟩
      · rw [e]; simp
      · rw [Function.update_noteq e]
        have hne : i.val ≠ s.avg_window_index := fun x => e (Fin.ext x)
        have hj0 : j ≠ 0 := by
          intro hz
          subst hz
          have := i.isLt
          omega
        apply hk (j - 1) (by omega) i
        have := i.isLt
        omega
    obtain ⟨s2, avgs, e, hl, hav, hall⟩ := ih
      ⟨Function.update s.avg_window ⟨s.avg_window_index, h⟩ P, (s.avg_window_index + 1) % 20⟩
      (k + 1) (Nat.mod_lt _ (by norm_num)) hk1
    refine ⟨s2, ((∑ i, Function.update s.avg_window ⟨s.avg_window_index, h⟩ P i) / 20) :: avgs,
      ?_, by simp [hl], ?_, ?_⟩
    · simp only [List.replicate_succ, window_samples, window_sample_eq s P h, e]
    · intro i hi h20
      cases i with
      | zero =>
        have hallP : ∀ i : Fin 20,
            Function.update s.avg_window ⟨s.avg_window_index, h⟩ P i = P := by
          intro i
          have hj : (i.val + ((s.avg_window_index + 1 + 20 - i.val - 1) % 20) + 1) % 20
              = (s.avg_window_index + 1) % 20 := by
            have := i.isLt
            omega
          exact hk1 ((s.avg_window_index + 1 + 20 - i.val - 1) % 20) (by omega) i hj
        simp [hallP]
      | succ i =>
        simp only [List.getElem?_cons_succ]
        exact hav i (by omega) (by omega)
    · intro h20
      exact hall (by omega)

/-- C16. For every content of the 20-slot window and every cursor below 20, feeding `n >= 20`
samples of the same value `P` goes through, and the average computed in cycle 20 and in
every later cycle, in particular the last one, is exactly `P` (exact arithmetic). -/
theorem filter_constant_input (s : MeasWindow) (P : ℚ) (n : Nat)
    (hcursor : s.avg_window_index < 20) (hn : 20 ≤ n) :
    ∃ s1 avgs, window_samples s (List.replicate n P) = some (s1, avgs) ∧
      avgs.length = n ∧
      (∀ i : Nat, 19 ≤ i → i < n → avgs[i]? = some P) ∧
      avgs.getLast? = some P := by
  obtain ⟨s1, avgs, e, hl, hav, _⟩ := window_samples_const P n s 0 hcursor
    (fun j hj => absurd hj (Nat.not_lt_zero j))
  refine ⟨s1, avgs, e, hl, fun i h19 hi => hav i hi (by omega), ?_⟩
  rw [List.getLast?_eq_getElem?, hl]
  exact hav (n - 1) (by omega) (by omega)

/-- Samples written into slots that still hold 0: each average is the sum so far over 20. -/
theorem window_samples_fresh (ps : List ℚ) (s : MeasWindow) (j : Nat)
    (hidx : s.avg_window_index = j % 20) (hlen : j + ps.length ≤ 20)
    (hzero : ∀ i : Fin 20, j ≤ i.val → s.avg_window i = 0) :
    ∃ s1 avgs, window_samples s ps = some (s1, avgs) ∧ avgs.length = ps.length ∧
      ∀ i : Nat, i < ps.length →
        avgs[i]? = some (((∑ x, s.avg_window x) + (ps.take (i + 1)).sum) / 20) := by
  induction ps generalizing s j with
  | nil => exact ⟨s, [], rfl, rfl, by simp⟩
  | cons p t ih =>
    simp only [List.length_cons] at hlen
    have hj : j < 20 := by omega
    have h : s.avg_window_index < 20 := by rw [hidx]; exact Nat.mod_lt _ (by norm_num)
    have hij : s.avg_window_index = j := by rw [hidx]; exact Nat.mod_eq_of_lt hj
    have hsum : (∑ x, Function.update s.avg_window ⟨s.avg_window_index, h⟩ p x)
        = (∑ x, s.avg_window x) + p := by
      rw [Finset.sum_update_of_mem (Finset.mem_univ _),
        Finset.sum_eq_add_sum_diff_singleton (Finset.mem_univ (⟨s.avg_window_index, h⟩ : Fin 20))
          s.avg_window,
        hzero ⟨s.avg_window_index, h⟩ (by simp [hij])]
      ring
    obtain ⟨s2, avgs, e, hl, hav⟩ := ih
      ⟨Function.update s.avg_window ⟨s.avg_window_index, h⟩ p, (s.avg_window_index + 1) % 20⟩
      (j + 1) (by simp [hij]) (by omega)
      (by
        intro i hi
        have hne : i ≠ ⟨s.avg_window_index, h⟩ := by
          intro e
          rw [e] at hi
          simp only [hij] at hi
          omega
        simp only [Function.update_noteq hne]
        exact hzero i (by omega))
    refine ⟨s2, ((∑ i, Function.update s.avg_window ⟨s.avg_window_index, h⟩ p i) / 20) :: avgs,
      ?_, by simp [hl], ?_⟩
    · simp only [window_samples, window_sample_eq s p h, e]
    · intro i hi
      cases i with
      | zero => simp [hsum]
      | succ i =>
        simp only [List.length_cons] at hi
        simp only [List.getElem?_cons_succ, List.take_succ_cons, List.sum_cons]
        rw [hav i (by omega), hsum]
        congr 2
        ring

/-- C19. For every averaged pressure, the height of tank 1 is
`0.0124 * (p - 140.183) + 1.656` when that value is at least 4.0 and 0 otherwise, the height
of tank 2 is `0.0124 * (p - 221.583) + 1.656` when that value is at least 2.0 and 0
otherwise; neither is negative, and neither lies strictly between 0 and the tank's usable
height offset (exact arithmetic). -/
theorem height_calibration (avg_pressure : ℚ) :
    (t1_height avg_pressure =
      if 0.0124 * (avg_pressure - 140.183) + 1.656 ≥ (4.0 : ℚ)
        then 0.0124 * (avg_pressure - 140.183) + 1.656 else 0) ∧
    (t2_height avg_pressure =
      if 0.0124 * (avg_pressure - 221.583) + 1.656 ≥ (2.0 : ℚ)
        then 0.0124 * (avg_pressure - 221.583) + 1.656 else 0) ∧
    0 ≤ t1_height avg_pressure ∧ 0 ≤ t2_height avg_pressure ∧
    ¬ (0 < t1_height avg_pressure ∧ t1_height avg_pressure < 4) ∧
    ¬ (0 < t2_height avg_pressure ∧ t2_height avg_pressure < 2) := by
  simp only [t1_height, t2_height, TANK_1_ZERO_PRESSURE_OFFSET, TANK_2_ZERO_PRESSURE_OFFSET,
    TANK_1_USABLE_HEIGHT_OFFSET, TANK_2_USABLE_HEIGHT_OFFSET]
  refine ⟨?_, ?_, ?_, ?_, ?_, ?_⟩ <;> split_ifs <;> norm_num at * <;>
    first | linarith | (intro _; linarith)

/-- C20. For every pair of raw readings, `calc_pressure` is `(20000/9) * V - 4000/9` with
`V = 500 * (r * 3.0 / 4095) / 280` the recovered sensor voltage; it does not depend on the
reading of the reference channel; and the transfer function maps 0.2 V to 0 Pa and 4.7 V to
10000 Pa (exact arithmetic). -/
theorem calc_pressure_formula (r g : Nat) :
    calc_pressure r g = (20000 / 9) * (500 * ((r : ℚ) * 3.0 / 4095) / 280) - 4000 / 9 ∧
    (∀ g2 : Nat, calc_pressure r g2 = calc_pressure r g) ∧
    sensor_voltage r = 500 * ((r : ℚ) * 3.0 / 4095) / 280 ∧
    calc_pressure r g = inst_pressure (sensor_voltage r) ∧
    inst_pressure 0.2 = 0 ∧ inst_pressure 4.7 = 10000 := by
  refine ⟨?_, fun _ => rfl, ?_, rfl, ?_, ?_⟩
  · simp only [calc_pressure, inst_pressure, sensor_voltage, VREF, RES_LEVELS]
    norm_num
    ring
  · simp only [sensor_voltage, VREF, RES_LEVELS]
    norm_num
    ring
  · norm_num [inst_pressure]
  · norm_num [inst_pressure]

/-- Witness for C14 (amended): tank 1 before its level control task has ever started. -/
theorem dropped_fill_latches_filling_witness :
    (level_ctrl_enable_task_start World.boot).sem TankId.Tank1.fill_sem = .NULL ∧
    CFloat.le (.fin 5) (.fin 10) = true ∧
    (check_ctrl_requirements (level_ctrl_enable_task_start World.boot) false false (.fin 5)
      TankId.Tank1.num).2.1 = true :=
  ⟨by decide, by decide,
    (dropped_fill_latches_filling .Tank1 (level_ctrl_enable_task_start World.boot) false
      (.fin 5) (by decide) (by decide)).2.1⟩

/-- Witness for C15: tank 1, filling at height 15, after the enable task handled a falling
edge. -/
theorem meas_task_cycle_control_off_witness :
    (level_ctrl_enable_task_cycle (gpio2_cb (enabledState .Tank1).1) false).sem
        TankId.Tank1.ctrl_off_sem = .live true ∧
    (meas_task_cycle .Tank1
        (level_ctrl_enable_task_cycle (gpio2_cb (enabledState .Tank1).1) false)
        ⟨true, false, true⟩ (.fin 15)).2 = ⟨false, false, false⟩ ∧
    commands .Tank1 (level_ctrl_enable_task_cycle (gpio2_cb (enabledState .Tank1).1) false)
      (meas_task_cycle .Tank1
        (level_ctrl_enable_task_cycle (gpio2_cb (enabledState .Tank1).1) false)
        ⟨true, false, true⟩ (.fin 15)).1 = [] :=
  ⟨by decide,
    (meas_task_cycle_control_off .Tank1
      (level_ctrl_enable_task_cycle (gpio2_cb (enabledState .Tank1).1) false)
      ⟨true, false, true⟩ (.fin 15) (by decide)).1,
    (meas_task_cycle_control_off .Tank1
      (level_ctrl_enable_task_cycle (gpio2_cb (enabledState .Tank1).1) false)
      ⟨true, false, true⟩ (.fin 15) (by decide)).2.2⟩

/-- Witness for C16: 23 samples of value 7 into a window holding 0 .. 19, cursor 13. -/
theorem filter_constant_input_witness :
    (13 : Nat) < 20 ∧ 20 ≤ 23 ∧
    ∃ s1 avgs, window_samples ⟨fun i => (i.val : ℚ), 13⟩ (List.replicate 23 7)
        = some (s1, avgs) ∧ avgs.getLast? = some 7 :=
  ⟨by decide, by decide,
    (filter_constant_input ⟨fun i => (i.val : ℚ), 13⟩ 7 23 (by decide) (by decide)).imp
      fun _ hs => hs.imp fun _ ha => ⟨ha.1, ha.2.2.2⟩⟩

/-- Witness for C18: the last slot, cursor 19. -/
theorem window_sample_ring_witness :
    (19 : Nat) < 20 ∧
    ∃ s1 avg, window_sample ⟨fun _ => 0, 19⟩ 5 = some (s1, avg) ∧ s1.avg_window_index = 0 :=
  ⟨by decide,
    (window_sample_ring ⟨fun _ => 0, 19⟩ 5 (by decide)).imp
      fun _ hs => hs.imp fun _ ha => ⟨ha.1, ha.2.2.2.2.1 rfl⟩⟩

/-- C21. For every semaphore handle that holds an empty binary semaphore, two gives before
any take leave one token: after the first give the token is there, the second give changes
no handle, the first take afterwards succeeds and leaves the semaphore empty, and the next
take fails. The five semaphores of each level control task are empty when created. -/
theorem binary_semaphore_coalesces (w : World) (s : Sem) (hempty : w.sem s = .live false) :
    (xSemaphoreGive w s).sem s = .live true ∧
    (xSemaphoreGive (xSemaphoreGive w s) s).sem = (xSemaphoreGive w s).sem ∧
    (xSemaphoreTake (xSemaphoreGive (xSemaphoreGive w s) s) s).1 = true ∧
    (xSemaphoreTake (xSemaphoreGive (xSemaphoreGive w s) s) s).2.sem s = .live false ∧
    (xSemaphoreTake (xSemaphoreTake (xSemaphoreGive (xSemaphoreGive w s) s) s).2 s).1 = false ∧
    (∀ w0 : World, ∀ s0 ∈ [Sem.delete_t1_ctrl_sem, .fill_t1_sem, .stop_fill_t1_sem,
        .drain_t1_sem, .stop_drain_t1_sem], (init_t1_semaphores w0).sem s0 = .live false) ∧
    (∀ w0 : World, ∀ s0 ∈ [Sem.delete_t2_ctrl_sem, .fill_t2_sem, .stop_fill_t2_sem,
        .drain_t2_sem, .stop_drain_t2_sem], (init_t2_semaphores w0).sem s0 = .live false) := by
  have h1 : (xSemaphoreGive w s).sem s = .live true := by
    simp [xSemaphoreGive, hempty]
  have h2 : (xSemaphoreGive (xSemaphoreGive w s) s).sem = (xSemaphoreGive w s).sem := by
    funext x
    by_cases hx : x = s
    · subst hx
      rw [h1]
      simp [xSemaphoreGive, hempty]
    · rw [xSemaphoreGive_sem_of_ne _ _ _ hx]
  have h3 : (xSemaphoreGive (xSemaphoreGive w s) s).sem s = .live true := by rw [h2, h1]
  refine ⟨h1, h2, ?_, ?_, ?_, ?_, ?_⟩
  · simp [xSemaphoreTake, h3]
  · simp [xSemaphoreTake, h3]
  · simp [xSemaphoreTake, h3]
  · intro w0 s0 hs0
    simp only [List.mem_cons, List.mem_singleton, List.not_mem_nil, or_false] at hs0
    rcases hs0 with h | h | h | h | h <;> subst h <;>
      simp [init_t1_semaphores, xSemaphoreCreateBinary]
  · intro w0 s0 hs0
    simp only [List.mem_cons, List.mem_singleton, List.not_mem_nil, or_false] at hs0
    rcases hs0 with h | h | h | h | h <;> subst h <;>
      simp [init_t2_semaphores, xSemaphoreCreateBinary]

/-- Witness for C21: the fill semaphore of tank 1 right after its task started. -/
theorem binary_semaphore_coalesces_witness :
    (startedWorld .Tank1).sem .fill_t1_sem = .live false ∧
    (xSemaphoreTake (xSemaphoreTake
      (xSemaphoreGive (xSemaphoreGive (startedWorld .Tank1) .fill_t1_sem) .fill_t1_sem)
      .fill_t1_sem).2 .fill_t1_sem).1 = false :=
  ⟨by decide,
    (binary_semaphore_coalesces (startedWorld .Tank1) .fill_t1_sem (by decide)).2.2.2.2.1⟩

/-- A give on a live semaphore leaves its token there. -/
theorem xSemaphoreGive_sem_self_live (w : World) (s : Sem) (b : Bool)
    (h : w.sem s = .live b) : (xSemaphoreGive w s).sem s = .live true := by
  simp [xSemaphoreGive, h]

/-- A guarded take on a live semaphore leaves it empty. -/
theorem takeIfSet_sem_self_live (w : World) (s : Sem) (b : Bool) (hs : w.sem s = .live b) :
    (takeIfSet w s).2.sem s = .live false := by
  unfold takeIfSet xSemaphoreTake
  cases b <;> simp [hs]

/-- A measurement cycle that finds both control signals pending. -/
theorem meas_task_cycle_both_pending (tank : TankId) (w : World) (l : MeasLocals)
    (height : CFloat) (hon : w.sem tank.ctrl_on_sem = .live true)
    (hoff : w.sem tank.ctrl_off_sem = .live true) :
    (meas_task_cycle tank w l height).2 = ⟨false, false, false⟩ ∧
    newEvents w (meas_task_cycle tank w l height).1 =
      [.take tank.ctrl_on_sem true, .take tank.ctrl_off_sem true] ∧
    (meas_task_cycle tank w l height).1.sem tank.ctrl_on_sem = .live false ∧
    (meas_task_cycle tank w l height).1.sem tank.ctrl_off_sem = .live false := by
  have hne : tank.ctrl_off_sem ≠ tank.ctrl_on_sem := by cases tank <;> decide
  have hoff1 : (takeIfSet w tank.ctrl_on_sem).2.sem tank.ctrl_off_sem = .live true := by
    rw [takeIfSet_sem_of_ne _ _ _ hne]; exact hoff
  have hb1 : (takeIfSet (takeIfSet w tank.ctrl_on_sem).2 tank.ctrl_off_sem).1 = true := by
    rw [takeIfSet_fst]; simp [hoff1]
  rw [meas_task_cycle_norm]
  simp only [hb1, if_true, Bool.false_eq_true, if_false]
  refine ⟨trivial, ?_, ?_, ?_⟩
  · apply newEvents_of_log
    rw [takeIfSet_log, takeIfSet_log, hoff1, hon]
    simp
  · rw [takeIfSet_sem_of_ne _ _ _ hne.symm]
    exact takeIfSet_sem_self_live w _ true hon
  · exact takeIfSet_sem_self_live _ _ true hoff1

/-- The high branch of the enable task as four calls. -/
theorem level_ctrl_enable_task_handle_high_norm (w : World) :
    level_ctrl_enable_task_handle w true =
      xSemaphoreGive (xSemaphoreGive
        (t2_level_ctrl_task_init (t1_level_ctrl_task_init w)) .ctrl_on_sem_1)
        .ctrl_on_sem_2 := by
  simp [level_ctrl_enable_task_handle]

/-- The high branch leaves a live control-on semaphore with its token. -/
theorem level_ctrl_enable_task_handle_high_on (tank : TankId) (w : World) (b : Bool)
    (h : w.sem tank.ctrl_on_sem = .live b) :
    (level_ctrl_enable_task_handle w true).sem tank.ctrl_on_sem = .live true := by
  rw [level_ctrl_enable_task_handle_high_norm]
  cases tank
  · rw [xSemaphoreGive_sem_of_ne _ _ _ (by decide)]
    exact xSemaphoreGive_sem_self_live _ _ b h
  · refine xSemaphoreGive_sem_self_live _ _ b ?_
    rw [xSemaphoreGive_sem_of_ne _ _ _ (by decide)]
    exact h

/-- The high branch does not touch the control-off semaphores. -/
theorem level_ctrl_enable_task_handle_high_off (tank : TankId) (w : World) :
    (level_ctrl_enable_task_handle w true).sem tank.ctrl_off_sem = w.sem tank.ctrl_off_sem := by
  rw [level_ctrl_enable_task_handle_high_norm]
  cases tank <;>
    (rw [xSemaphoreGive_sem_of_ne _ _ _ (by decide), xSemaphoreGive_sem_of_ne _ _ _ (by decide)]
     rfl)

/-- The low branch leaves a live control-off semaphore with its token. -/
theorem level_ctrl_enable_task_handle_low_off (tank : TankId) (w : World) (b : Bool)
    (h : w.sem tank.ctrl_off_sem = .live b) :
    (level_ctrl_enable_task_handle w false).sem tank.ctrl_off_sem = .live true := by
  rw [level_ctrl_enable_task_handle_low_norm]
  cases tank
  · rw [xSemaphoreGive_sem_of_ne _ _ _ (by decide)]
    refine xSemaphoreGive_sem_self_live _ _ b ?_
    rw [giveIfSet_sem_of_ne _ _ _ (by decide), giveIfSet_sem_of_ne _ _ _ (by decide)]
    exact h
  · refine xSemaphoreGive_sem_self_live _ _ b ?_
    rw [xSemaphoreGive_sem_of_ne _ _ _ (by decide), giveIfSet_sem_of_ne _ _ _ (by decide),
      giveIfSet_sem_of_ne _ _ _ (by decide)]
    exact h

/-- The low branch does not touch the control-on semaphores. -/
theorem level_ctrl_enable_task_handle_low_on (tank : TankId) (w : World) :
    (level_ctrl_enable_task_handle w false).sem tank.ctrl_on_sem = w.sem tank.ctrl_on_sem := by
  rw [level_ctrl_enable_task_handle_low_norm]
  cases tank <;>
    rw [xSemaphoreGive_sem_of_ne _ _ _ (by decide), xSemaphoreGive_sem_of_ne _ _ _ (by decide),
      giveIfSet_sem_of_ne _ _ _ (by decide), giveIfSet_sem_of_ne _ _ _ (by decide)]

/-- C24. For each tank, every state of the measurement task's locals and every height, a
cycle that finds both the control-on and the control-off signal pending takes control-on
first and control-off second, and ends with `ctrl_on = false`, `filling = false` and
`draining = false`, both signals consumed. This is so whichever signal the enable task sent
last: after a low pass followed by a high pass (disable, then re-enable) and after a high
pass followed by a low pass, on live control semaphores, the next cycle ends with control
off. -/
theorem meas_task_cycle_on_and_off_pending (tank : TankId) (w : World) (l : MeasLocals)
    (height : CFloat) (hon : w.sem tank.ctrl_on_sem = .live true)
    (hoff : w.sem tank.ctrl_off_sem = .live true) :
    (meas_task_cycle tank w l height).2 = ⟨false, false, false⟩ ∧
    newEvents w (meas_task_cycle tank w l height).1 =
      [.take tank.ctrl_on_sem true, .take tank.ctrl_off_sem true] ∧
    (meas_task_cycle tank w l height).1.sem tank.ctrl_on_sem = .live false ∧
    (meas_task_cycle tank w l height).1.sem tank.ctrl_off_sem = .live false ∧
    (∀ (w0 : World) (b1 b2 : Bool), w0.sem tank.ctrl_on_sem = .live b1 →
      w0.sem tank.ctrl_off_sem = .live b2 →
      (meas_task_cycle tank
        (level_ctrl_enable_task_handle (level_ctrl_enable_task_handle w0 false) true)
        l height).2 = ⟨false, false, false⟩ ∧
      (meas_task_cycle tank
        (level_ctrl_enable_task_handle (level_ctrl_enable_task_handle w0 true) false)
        l height).2 = ⟨false, false, false⟩) := by
  obtain ⟨h1, h2, h3, h4⟩ := meas_task_cycle_both_pending tank w l height hon hoff
  refine ⟨h1, h2, h3, h4, ?_⟩
  intro w0 b1 b2 hon0 hoff0
  constructor
  · refine (meas_task_cycle_both_pending tank _ l height ?_ ?_).1
    · refine level_ctrl_enable_task_handle_high_on tank _ b1 ?_
      rw [level_ctrl_enable_task_handle_low_on]; exact hon0
    · rw [level_ctrl_enable_task_handle_high_off]
      exact level_ctrl_enable_task_handle_low_off tank _ b2 hoff0
  · refine (meas_task_cycle_both_pending tank _ l height ?_ ?_).1
    · rw [level_ctrl_enable_task_handle_low_on]
      exact level_ctrl_enable_task_handle_high_on tank _ b1 hon0
    · refine level_ctrl_enable_task_handle_low_off tank _ b2 ?_
      rw [level_ctrl_enable_task_handle_high_off]; exact hoff0

/-- Witness for C24: tank 2, the enable task having handled a low and then a high level. -/
theorem meas_task_cycle_on_and_off_pending_witness :
    (level_ctrl_enable_task_handle (level_ctrl_enable_task_handle
      (level_ctrl_enable_task_start World.boot) false) true).sem TankId.Tank2.ctrl_on_sem
        = .live true ∧
    (level_ctrl_enable_task_handle (level_ctrl_enable_task_handle
      (level_ctrl_enable_task_start World.boot) false) true).sem TankId.Tank2.ctrl_off_sem
        = .live true ∧
    (meas_task_cycle .Tank2
      (level_ctrl_enable_task_handle (level_ctrl_enable_task_handle
        (level_ctrl_enable_task_start World.boot) false) true)
      ⟨true, false, true⟩ (.fin 15)).2 = ⟨false, false, false⟩ :=
  ⟨by decide, by decide,
    (meas_task_cycle_on_and_off_pending .Tank2
      (level_ctrl_enable_task_handle (level_ctrl_enable_task_handle
        (level_ctrl_enable_task_start World.boot) false) true)
      ⟨true, false, true⟩ (.fin 15) (by decide) (by decide)).1⟩

/-- Requests that all time out on both queues leave the stored heights as they were and
answer each time with the stored heights. -/
theorem uart_task_run_timeouts (fmt : CFloat → String) (n : Nat) (w : World)
    (l : UartLocals) :
    (uart_task_run fmt (w, l) (List.replicate n ('R'.toNat, .timeout, .timeout))).1.2 = l ∧
    (uart_task_run fmt (w, l) (List.replicate n ('R'.toNat, .timeout, .timeout))).2 =
      List.replicate n (some (uart_str fmt l.tank_1_height l.tank_2_height)) := by
  induction n generalizing w with
  | zero => exact ⟨rfl, rfl⟩
  | succ n ih =>
    simp only [List.replicate_succ, uart_task_run, uart_task_cycle, if_true]
    exact ⟨(ih _).1, by rw [(ih _).2]⟩

/-- C22. For every state of `uart_task` and every conversion used for `%.1f`, when an `R`
is handled: a tank whose receive times out keeps its stored height, a tank whose receive
succeeds has its stored height replaced by the height of the packet received, and the
string sent is `T1=<h1>T2=<h2>!` built from the heights stored after the two receives, so
from the heights stored before when both time out. From the start of the task, any number
of requests that all time out leave both stored heights at 0.0 and each answer is built
from 0.0. -/
theorem uart_request_stored_heights (fmt : CFloat → String) (w : World) (l : UartLocals)
    (rx1 rx2 : QueueRecv) (p : packet) (n : Nat) :
    (uart_task_cycle fmt w l 'R'.toNat .timeout rx2).2.1.tank_1_height = l.tank_1_height ∧
    (uart_task_cycle fmt w l 'R'.toNat rx1 .timeout).2.1.tank_2_height = l.tank_2_height ∧
    (uart_task_cycle fmt w l 'R'.toNat (.received p) rx2).2.1.tank_1_height = p.height ∧
    (uart_task_cycle fmt w l 'R'.toNat rx1 (.received p)).2.1.tank_2_height = p.height ∧
    (uart_task_cycle fmt w l 'R'.toNat rx1 rx2).2.2 =
      some ("T1=" ++ fmt (uart_task_cycle fmt w l 'R'.toNat rx1 rx2).2.1.tank_1_height ++
            "T2=" ++ fmt (uart_task_cycle fmt w l 'R'.toNat rx1 rx2).2.1.tank_2_height ++
            "!") ∧
    (uart_task_cycle fmt w l 'R'.toNat .timeout .timeout).2.2 =
      some ("T1=" ++ fmt l.tank_1_height ++ "T2=" ++ fmt l.tank_2_height ++ "!") ∧
    (uart_task_run fmt (w, UartLocals.init)
        (List.replicate n ('R'.toNat, .timeout, .timeout))).1.2 = ⟨.fin 0, .fin 0⟩ ∧
    (uart_task_run fmt (w, UartLocals.init)
        (List.replicate n ('R'.toNat, .timeout, .timeout))).2 =
      List.replicate n (some ("T1=" ++ fmt (.fin 0) ++ "T2=" ++ fmt (.fin 0) ++ "!")) := by
  refine ⟨rfl, rfl, rfl, rfl, rfl, rfl, ?_, ?_⟩
  · exact (uart_task_run_timeouts fmt n w UartLocals.init).1
  · exact (uart_task_run_timeouts fmt n w UartLocals.init).2

/-- C23, counterexample. Tank 1 with control on: after the cycles `meas 5, poll, meas 25,
meas 5` the level control task is filling and both stop-fill and fill are pending. The
next poll pass takes stop-fill only on the fill axis (then drain and delete, both empty):
it makes no take on fill, and the fill signal is still pending when the pass ends. -/
theorem pending_fill_not_consumed_while_filling :
    (sysRun .Tank1 (enabledState .Tank1)
      [.meas (.fin 5), .poll, .meas (.fin 25), .meas (.fin 5)]).1.sem .fill_t1_sem
        = .live true ∧
    (sysRun .Tank1 (enabledState .Tank1)
      [.meas (.fin 5), .poll, .meas (.fin 25), .meas (.fin 5)]).1.sem .stop_fill_t1_sem
        = .live true ∧
    (sysRun .Tank1 (enabledState .Tank1)
      [.meas (.fin 5), .poll, .meas (.fin 25), .meas (.fin 5)]).2.2 = ⟨true, false, false⟩ ∧
    newEvents
      (sysRun .Tank1 (enabledState .Tank1)
        [.meas (.fin 5), .poll, .meas (.fin 25), .meas (.fin 5)]).1
      (sysRun .Tank1 (enabledState .Tank1)
        [.meas (.fin 5), .poll, .meas (.fin 25), .meas (.fin 5), .poll]).1 =
        [.take .stop_fill_t1_sem true, .gpio_put 14 false, .gpio_put 15 false,
         .take .drain_t1_sem false, .take .delete_t1_ctrl_sem false] ∧
    (sysRun .Tank1 (enabledState .Tank1)
      [.meas (.fin 5), .poll, .meas (.fin 25), .meas (.fin 5), .poll]).1.sem .fill_t1_sem
        = .live true := by
  decide

/-- The fill-axis semaphores after the first block of a poll pass. -/
theorem fillStage_sems (tank : TankId) (w : World) (f d bf bsf : Bool)
    (hfill : w.sem tank.fill_sem = .live bf) (hsf : w.sem tank.stop_fill_sem = .live bsf) :
    (fillStage tank w f d).1.sem tank.stop_fill_sem = (if f then .live false else .live bsf) ∧
    (fillStage tank w f d).1.sem tank.fill_sem = (if f then .live bf else .live false) := by
  cases tank <;> cases f <;> cases bf <;> cases bsf <;>
    simp_all [fillStage, xSemaphoreTake, handle_ctrl_pins, handle_t1_ctrl_pins,
      handle_t2_ctrl_pins, gpio_put, TankId.fill_sem, TankId.stop_fill_sem,
      TankId.fill_pin, TankId.drain_pin]

/-- The drain-axis semaphores after the second block of a poll pass. -/
theorem drainStage_sems (tank : TankId) (w : World) (f d bd bsd : Bool)
    (hdr : w.sem tank.drain_sem = .live bd) (hsd : w.sem tank.stop_drain_sem = .live bsd) :
    (drainStage tank w f d).1.sem tank.stop_drain_sem = (if d then .live false else .live bsd) ∧
    (drainStage tank w f d).1.sem tank.drain_sem = (if d then .live bd else .live false) := by
  cases tank <;> cases d <;> cases bd <;> cases bsd <;>
    simp_all [drainStage, xSemaphoreTake, handle_ctrl_pins, handle_t1_ctrl_pins,
      handle_t2_ctrl_pins, gpio_put, TankId.drain_sem, TankId.stop_drain_sem,
      TankId.fill_pin, TankId.drain_pin]

/-- The third block of a poll pass when no delete signal is pending. -/
theorem deleteStage_not_pending (tank : TankId) (w : World) (f d : Bool)
    (hdel : w.sem tank.delete_sem = .live false) :
    (deleteStage tank w f d).2 = ⟨f, d, false⟩ ∧
    (deleteStage tank w f d).1.log = w.log ++ [.take tank.delete_sem false] ∧
    (deleteStage tank w f d).1.sem = w.sem ∧
    (deleteStage tank w f d).1.gpio = w.gpio := by
  cases tank <;> simp_all [deleteStage, xSemaphoreTake, TankId.delete_sem]

/-- C23, amended. For each tank, every value of the task's flags and every combination of
pending signals on the four command channels (the five semaphores existing, no delete
pending), a poll pass checks one channel per axis, fill axis first: stop-fill when
`filling` is set and fill otherwise, then stop-drain when `draining` is set and drain
otherwise, then delete. The checked channel of each axis is empty at the end of the pass (a
signal pending on it has been consumed); the other channel of the axis is not taken and
keeps what it held. -/
theorem poll_pass_checks_one_channel_per_axis (tank : TankId) (w : World) (t : CtrlTask)
    (bf bsf bd bsd : Bool) (halive : t.deleted = false)
    (hfill : w.sem tank.fill_sem = .live bf)
    (hsf : w.sem tank.stop_fill_sem = .live bsf)
    (hdr : w.sem tank.drain_sem = .live bd)
    (hsd : w.sem tank.stop_drain_sem = .live bsd)
    (hdel : w.sem tank.delete_sem = .live false) :
    newEvents w (level_ctrl_task_cycle tank w t).1 =
      ((if t.filling then
          Event.take tank.stop_fill_sem bsf ::
            (if bsf then [.gpio_put tank.fill_pin false, .gpio_put tank.drain_pin t.draining]
              else [])
        else
          Event.take tank.fill_sem bf ::
            (if bf then [.gpio_put tank.fill_pin true, .gpio_put tank.drain_pin t.draining]
              else [])) ++
       (if t.draining then
          Event.take tank.stop_drain_sem bsd ::
            (if bsd then [.gpio_put tank.fill_pin (if t.filling then !bsf else bf),
                          .gpio_put tank.drain_pin false] else [])
        else
          Event.take tank.drain_sem bd ::
            (if bd then [.gpio_put tank.fill_pin (if t.filling then !bsf else bf),
                         .gpio_put tank.drain_pin true] else [])) ++
       [.take tank.delete_sem false]) ∧
    (level_ctrl_task_cycle tank w t).1.sem tank.stop_fill_sem
      = (if t.filling then .live false else .live bsf) ∧
    (level_ctrl_task_cycle tank w t).1.sem tank.fill_sem
      = (if t.filling then .live bf else .live false) ∧
    (level_ctrl_task_cycle tank w t).1.sem tank.stop_drain_sem
      = (if t.draining then .live false else .live bsd) ∧
    (level_ctrl_task_cycle tank w t).1.sem tank.drain_sem
      = (if t.draining then .live bd else .live false) ∧
    (level_ctrl_task_cycle tank w t).2 =
      ⟨if t.filling then !bsf else bf, if t.draining then !bsd else bd, false⟩ := by
  obtain ⟨f, d, del⟩ := t
  simp only at halive
  subst halive
  obtain ⟨a1, a2, a3⟩ := fillStage_live tank w f d bf bsf hfill hsf
  obtain ⟨a4, a5⟩ := fillStage_sems tank w f d bf bsf hfill hsf
  have hdr1 : (fillStage tank w f d).1.sem tank.drain_sem = .live bd := by
    rw [a3 _ (by cases tank <;> decide) (by cases tank <;> decide)]; exact hdr
  have hsd1 : (fillStage tank w f d).1.sem tank.stop_drain_sem = .live bsd := by
    rw [a3 _ (by cases tank <;> decide) (by cases tank <;> decide)]; exact hsd
  have hdel1 : (fillStage tank w f d).1.sem tank.delete_sem = .live false := by
    rw [a3 _ (by cases tank <;> decide) (by cases tank <;> decide)]; exact hdel
  obtain ⟨b1, b2, b3⟩ := drainStage_live tank (fillStage tank w f d).1 (fillStage tank w f d).2 d
    bd bsd hdr1 hsd1
  obtain ⟨b4, b5⟩ := drainStage_sems tank (fillStage tank w f d).1 (fillStage tank w f d).2 d
    bd bsd hdr1 hsd1
  have hdel2 : (drainStage tank (fillStage tank w f d).1 (fillStage tank w f d).2 d).1.sem
      tank.delete_sem = .live false := by
    rw [b3 _ (by cases tank <;> decide) (by cases tank <;> decide)]; exact hdel1
  obtain ⟨c1, c2, c3, _⟩ := deleteStage_not_pending tank
    (drainStage tank (fillStage tank w f d).1 (fillStage tank w f d).2 d).1
    (fillStage tank w f d).2
    (drainStage tank (fillStage tank w f d).1 (fillStage tank w f d).2 d).2 hdel2
  rw [level_ctrl_task_cycle_stages]
  refine ⟨?_, ?_, ?_, ?_, ?_, ?_⟩
  · apply newEvents_of_log
    rw [c2, b2, a2, a1]
    simp only [List.append_assoc]
  · rw [c3, b3 _ (by cases tank <;> decide) (by cases tank <;> decide)]; exact a4
  · rw [c3, b3 _ (by cases tank <;> decide) (by cases tank <;> decide)]; exact a5
  · rw [c3]; exact b4
  · rw [c3]; exact b5
  · rw [c1, b1, a1]

/-- Witness for C23: tank 1 filling, with both fill and stop-fill pending. -/
theorem poll_pass_checks_one_channel_per_axis_witness :
    (xSemaphoreGive (xSemaphoreGive (startedWorld .Tank1) .fill_t1_sem)
        .stop_fill_t1_sem).sem TankId.Tank1.fill_sem = .live true ∧
    (xSemaphoreGive (xSemaphoreGive (startedWorld .Tank1) .fill_t1_sem)
        .stop_fill_t1_sem).sem TankId.Tank1.stop_fill_sem = .live true ∧
    (level_ctrl_task_cycle .Tank1
        (xSemaphoreGive (xSemaphoreGive (startedWorld .Tank1) .fill_t1_sem) .stop_fill_t1_sem)
        ⟨true, false, false⟩).1.sem TankId.Tank1.fill_sem
      = (if (⟨true, false, false⟩ : CtrlTask).filling then .live true else .live false) :=
  ⟨by decide, by decide,
    (poll_pass_checks_one_channel_per_axis .Tank1
      (xSemaphoreGive (xSemaphoreGive (startedWorld .Tank1) .fill_t1_sem) .stop_fill_t1_sem)
      ⟨true, false, false⟩ true true false false rfl (by decide) (by decide) (by decide)
      (by decide) (by decide)).2.2.1⟩

/-- The decimal digits of a number up to 143 are at most three. -/
theorem repr_length_le_three : ∀ k : Nat, k ≤ 143 → (Nat.repr k).length ≤ 3 := by
  decide

/-- A number below ten has one decimal digit. -/
theorem repr_length_digit : ∀ k : Nat, k ≤ 9 → (Nat.repr k).length = 1 := by
  decide

/-- Bounds of a pressure computed from a 12-bit raw reading. -/
theorem calc_pressure_bounds (r g : Nat) (hr : r ≤ 4095) :
    -(4000 / 9 : ℚ) ≤ calc_pressure r g ∧ calc_pressure r g ≤ 11461 := by
  have h0 : (0 : ℚ) ≤ (r : ℚ) := Nat.cast_nonneg r
  have h1 : (r : ℚ) ≤ 4095 := by exact_mod_cast hr
  simp only [calc_pressure, inst_pressure, sensor_voltage, VREF, RES_LEVELS]
  constructor
  · norm_num
    positivity
  · norm_num
    linarith

/-- Bounds of a slot of an averaging window. -/
theorem slotOfAdc_bounds (p : ℚ) (h : slotOfAdc p) : -(4000 / 9 : ℚ) ≤ p ∧ p ≤ 11461 := by
  rcases h with h | ⟨r, g, hr, h⟩
  · subst h; norm_num
  · rw [h]; exact calc_pressure_bounds r g hr

/-- Bounds of the average of a window of such slots. -/
theorem window_average_bounds (w : Fin 20 → ℚ) (hw : ∀ i, slotOfAdc (w i)) :
    -(4000 / 9 : ℚ) ≤ (∑ i, w i) / AVG_WINDOW_WIDTH_FLOAT ∧
    (∑ i, w i) / AVG_WINDOW_WIDTH_FLOAT ≤ 11461 := by
  have hlo : ∑ _i : Fin 20, (-(4000 / 9 : ℚ)) ≤ ∑ i, w i :=
    Finset.sum_le_sum (fun i _ => (slotOfAdc_bounds (w i) (hw i)).1)
  have hhi : ∑ i, w i ≤ ∑ _i : Fin 20, (11461 : ℚ) :=
    Finset.sum_le_sum (fun i _ => (slotOfAdc_bounds (w i) (hw i)).2)
  simp only [Finset.sum_const, Finset.card_univ, Fintype.card_fin, nsmul_eq_mul] at hlo hhi
  push_cast at hlo hhi
  have h20 : AVG_WINDOW_WIDTH_FLOAT = 20 := by norm_num [AVG_WINDOW_WIDTH_FLOAT]
  rw [h20]
  constructor
  · rw [le_div_iff₀ (by norm_num)]; linarith
  · rw [div_le_iff₀ (by norm_num)]; linarith

/-- The height of tank 1 lies in `[0, 143)` for an average pressure up to 11461. -/
theorem t1_height_bounds (a : ℚ) (hhi : a ≤ 11461) :
    0 ≤ t1_height a ∧ t1_height a < 143 := by
  simp only [t1_height, TANK_1_ZERO_PRESSURE_OFFSET, TANK_1_USABLE_HEIGHT_OFFSET]
  split_ifs with h
  · norm_num
  · constructor
    · have := not_lt.mp h
      norm_num at this ⊢
      linarith
    · norm_num
      linarith

/-- The height of tank 2 lies in `[0, 143)` for an average pressure up to 11461. -/
theorem t2_height_bounds (a : ℚ) (hhi : a ≤ 11461) :
    0 ≤ t2_height a ∧ t2_height a < 143 := by
  simp only [t2_height, TANK_2_ZERO_PRESSURE_OFFSET, TANK_2_USABLE_HEIGHT_OFFSET]
  split_ifs with h
  · norm_num
  · constructor
    · have := not_lt.mp h
      norm_num at this ⊢
      linarith
    · norm_num
      linarith

/-- A height in `[0, 143)` printed with one decimal takes at most five characters. -/
theorem printf_1f_length (q : ℚ) (h0 : 0 ≤ q) (h1 : q < 143) : (printf_1f q).length ≤ 5 := by
  have hfloor : ⌊|q| * 10 + 1 / 2⌋ ≤ 1430 := by
    have : ⌊|q| * 10 + 1 / 2⌋ < 1431 := by
      rw [Int.floor_lt]
      rw [abs_of_nonneg h0]
      push_cast
      linarith
    omega
  have hn : Int.toNat ⌊|q| * 10 + 1 / 2⌋ ≤ 1430 := by omega
  have ha := repr_length_le_three (Int.toNat ⌊|q| * 10 + 1 / 2⌋ / 10) (by omega)
  have hb := repr_length_digit (Int.toNat ⌊|q| * 10 + 1 / 2⌋ % 10) (by omega)
  simp only [printf_1f, not_lt.mpr h0, if_false, String.length_append, hb]
  have e1 : "".length = 0 := rfl
  have e2 : ".".length = 1 := rfl
  rw [e1, e2]
  omega

/-- Two heights of at most five characters each give an answer of at most 17. -/
theorem uart_str_length (h1 h2 : ℚ) (a1 : (printf_1f h1).length ≤ 5)
    (a2 : (printf_1f h2).length ≤ 5) :
    (uart_str printf_float (.fin h1) (.fin h2)).length ≤ 17 := by
  simp only [uart_str, printf_float, String.length_append]
  have e1 : "T1=".length = 3 := rfl
  have e2 : "T2=".length = 3 := rfl
  have e3 : "!".length = 1 := rfl
  rw [e1, e2, e3]
  omega

/-- C25. For every pair of averaging windows whose 20 slots each hold 0 or
`calc_pressure r g` with `r ≤ 4095`, the height computed for tank 1 and the height
computed for tank 2 from the window average lie in `[0, 143)`; each height printed with one
decimal takes at most 5 characters, and the answer `T1=<h1>T2=<h2>!` takes at most 17
characters, so at most 18 of the 20 bytes of `uart_str` with its terminator. The heights
are those of `t1_meas_task` and `t2_meas_task`: a sampling cycle whose store produces such a
window returns that height. -/
theorem height_range_and_response_length (w1 w2 : Fin 20 → ℚ)
    (hw1 : ∀ i, w1 i = 0 ∨ ∃ r g : Nat, r ≤ 4095 ∧ w1 i = calc_pressure r g)
    (hw2 : ∀ i, w2 i = 0 ∨ ∃ r g : Nat, r ≤ 4095 ∧ w2 i = calc_pressure r g) :
    0 ≤ t1_height ((∑ i, w1 i) / AVG_WINDOW_WIDTH_FLOAT) ∧
    t1_height ((∑ i, w1 i) / AVG_WINDOW_WIDTH_FLOAT) < 143 ∧
    0 ≤ t2_height ((∑ i, w2 i) / AVG_WINDOW_WIDTH_FLOAT) ∧
    t2_height ((∑ i, w2 i) / AVG_WINDOW_WIDTH_FLOAT) < 143 ∧
    (printf_1f (t1_height ((∑ i, w1 i) / AVG_WINDOW_WIDTH_FLOAT))).length ≤ 5 ∧
    (printf_1f (t2_height ((∑ i, w2 i) / AVG_WINDOW_WIDTH_FLOAT))).length ≤ 5 ∧
    (uart_str printf_float (.fin (t1_height ((∑ i, w1 i) / AVG_WINDOW_WIDTH_FLOAT)))
      (.fin (t2_height ((∑ i, w2 i) / AVG_WINDOW_WIDTH_FLOAT)))).length ≤ 17 ∧
    (uart_str printf_float (.fin (t1_height ((∑ i, w1 i) / AVG_WINDOW_WIDTH_FLOAT)))
      (.fin (t2_height ((∑ i, w2 i) / AVG_WINDOW_WIDTH_FLOAT)))).length + 1 ≤ 20 ∧
    (∀ (s : MeasWindow) (r g : Nat) (hc : s.avg_window_index < 20),
      Function.update s.avg_window ⟨s.avg_window_index, hc⟩ (calc_pressure r g) = w1 →
      (t1_meas_task_sample s r g).map Prod.snd
        = some (t1_height ((∑ i, w1 i) / AVG_WINDOW_WIDTH_FLOAT))) ∧
    (∀ (s : MeasWindow) (r g : Nat) (hc : s.avg_window_index < 20),
      Function.update s.avg_window ⟨s.avg_window_index, hc⟩ (calc_pressure r g) = w2 →
      (t2_meas_task_sample s r g).map Prod.snd
        = some (t2_height ((∑ i, w2 i) / AVG_WINDOW_WIDTH_FLOAT))) := by
  obtain ⟨_, a2⟩ := window_average_bounds w1 hw1
  obtain ⟨_, b2⟩ := window_average_bounds w2 hw2
  obtain ⟨c1, c2⟩ := t1_height_bounds _ a2
  obtain ⟨d1, d2⟩ := t2_height_bounds _ b2
  have e1 := printf_1f_length _ c1 c2
  have e2 := printf_1f_length _ d1 d2
  have e3 := uart_str_length _ _ e1 e2
  have h20 : AVG_WINDOW_WIDTH_FLOAT = 20 := by norm_num [AVG_WINDOW_WIDTH_FLOAT]
  refine ⟨c1, c2, d1, d2, e1, e2, e3, by omega, ?_, ?_⟩
  · intro s r g hc hw
    rw [t1_meas_task_sample, window_sample_eq s _ hc, hw, h20]
    rfl
  · intro s r g hc hw
    rw [t2_meas_task_sample, window_sample_eq s _ hc, hw, h20]
    rfl

/-- The height of tank 1 from a window of full-scale readings. -/
theorem t1_full_scale_height :
    t1_height ((∑ i, (fun _ : Fin 20 => calc_pressure 4095 0) i) / AVG_WINDOW_WIDTH_FLOAT)
      = 22369042601 / 157500000 := by
  simp only [Finset.sum_const, Finset.card_univ, Fintype.card_fin, nsmul_eq_mul,
    t1_height, calc_pressure, inst_pressure, sensor_voltage, VREF, RES_LEVELS,
    AVG_WINDOW_WIDTH_FLOAT, TANK_1_ZERO_PRESSURE_OFFSET, TANK_1_USABLE_HEIGHT_OFFSET]
  norm_num

/-- The height of tank 2 from a window half filled with mid-scale readings. -/
theorem t2_half_window_height :
    t2_height ((∑ i, (fun i : Fin 20 => if i.val < 10 then calc_pressure 2048 7 else 0) i)
      / AVG_WINDOW_WIDTH_FLOAT) = 1421780673473 / 42997500000 := by
  simp only [Fin.sum_univ_succ, Fin.sum_univ_zero,
    t2_height, calc_pressure, inst_pressure, sensor_voltage, VREF, RES_LEVELS,
    AVG_WINDOW_WIDTH_FLOAT, TANK_2_ZERO_PRESSURE_OFFSET, TANK_2_USABLE_HEIGHT_OFFSET]
  norm_num

/-- The text printed for a non-negative value whose nearest tenth is `n / 10`. -/
theorem printf_1f_of_tenths (q : ℚ) (n : Nat) (h0 : 0 ≤ q) (hlo : (n : ℚ) ≤ q * 10 + 1 / 2)
    (hhi : q * 10 + 1 / 2 < (n : ℚ) + 1) :
    printf_1f q = Nat.repr (n / 10) ++ "." ++ Nat.repr (n % 10) := by
  have hfloor : ⌊|q| * 10 + 1 / 2⌋ = (n : ℤ) := by
    rw [abs_of_nonneg h0, Int.floor_eq_iff]
    push_cast
    exact ⟨hlo, hhi⟩
  simp only [printf_1f, hfloor, Int.toNat_ofNat, not_lt.mpr h0, if_false]
  rfl

/-- The full-scale height of tank 1 prints with five characters. -/
theorem printf_1f_full_scale : printf_1f (22369042601 / 157500000) = "142.0" := by
  rw [printf_1f_of_tenths _ 1420 (by norm_num) (by norm_num) (by norm_num)]
  decide

/-- The half-window height of tank 2 as printed. -/
theorem printf_1f_half_window : printf_1f (1421780673473 / 42997500000) = "33.1" := by
  rw [printf_1f_of_tenths _ 331 (by norm_num) (by norm_num) (by norm_num)]
  decide

/-- The answer sent for these two heights. -/
theorem uart_str_full_scale_half_window :
    uart_str printf_float
      (.fin (t1_height
        ((∑ i, (fun _ : Fin 20 => calc_pressure 4095 0) i) / AVG_WINDOW_WIDTH_FLOAT)))
      (.fin (t2_height
        ((∑ i, (fun i : Fin 20 => if i.val < 10 then calc_pressure 2048 7 else 0) i)
          / AVG_WINDOW_WIDTH_FLOAT))) = "T1=142.0T2=33.1!" := by
  rw [t1_full_scale_height, t2_half_window_height]
  simp only [uart_str, printf_float, printf_1f_full_scale, printf_1f_half_window]
  decide

/-- Witness for C25: tank 1 with a window of full-scale readings (raw 4095 in every slot,
height about 142.03, printed `142.0`), tank 2 with a window half filled with mid-scale
readings (raw 2048 in ten slots, 0 in the others, height about 33.07, printed `33.1`). -/
theorem height_range_and_response_length_witness :
    t1_height ((∑ i, (fun _ : Fin 20 => calc_pressure 4095 0) i) / AVG_WINDOW_WIDTH_FLOAT)
      = 22369042601 / 157500000 ∧
    t2_height ((∑ i, (fun i : Fin 20 => if i.val < 10 then calc_pressure 2048 7 else 0) i)
      / AVG_WINDOW_WIDTH_FLOAT) = 1421780673473 / 42997500000 ∧
    uart_str printf_float
      (.fin (t1_height
        ((∑ i, (fun _ : Fin 20 => calc_pressure 4095 0) i) / AVG_WINDOW_WIDTH_FLOAT)))
      (.fin (t2_height
        ((∑ i, (fun i : Fin 20 => if i.val < 10 then calc_pressure 2048 7 else 0) i)
          / AVG_WINDOW_WIDTH_FLOAT))) = "T1=142.0T2=33.1!" ∧
    (t1_meas_task_sample ⟨fun _ => calc_pressure 4095 0, 3⟩ 4095 0).map Prod.snd
      = some (t1_height
          ((∑ i, (fun _ : Fin 20 => calc_pressure 4095 0) i) / AVG_WINDOW_WIDTH_FLOAT)) ∧
    (0 ≤ t1_height
        ((∑ i, (fun _ : Fin 20 => calc_pressure 4095 0) i) / AVG_WINDOW_WIDTH_FLOAT) ∧
     t1_height ((∑ i, (fun _ : Fin 20 => calc_pressure 4095 0) i) / AVG_WINDOW_WIDTH_FLOAT)
        < 143 ∧
     0 ≤ t2_height
        ((∑ i, (fun i : Fin 20 => if i.val < 10 then calc_pressure 2048 7 else 0) i)
          / AVG_WINDOW_WIDTH_FLOAT) ∧
     t2_height ((∑ i, (fun i : Fin 20 => if i.val < 10 then calc_pressure 2048 7 else 0) i)
        / AVG_WINDOW_WIDTH_FLOAT) < 143 ∧
     (printf_1f (t1_height
        ((∑ i, (fun _ : Fin 20 => calc_pressure 4095 0) i) / AVG_WINDOW_WIDTH_FLOAT))).length
        ≤ 5 ∧
     (printf_1f (t2_height
        ((∑ i, (fun i : Fin 20 => if i.val < 10 then calc_pressure 2048 7 else 0) i)
          / AVG_WINDOW_WIDTH_FLOAT))).length ≤ 5 ∧
     (uart_str printf_float
        (.fin (t1_height
          ((∑ i, (fun _ : Fin 20 => calc_pressure 4095 0) i) / AVG_WINDOW_WIDTH_FLOAT)))
        (.fin (t2_height
          ((∑ i, (fun i : Fin 20 => if i.val < 10 then calc_pressure 2048 7 else 0) i)
            / AVG_WINDOW_WIDTH_FLOAT)))).length ≤ 17) :=
  ⟨t1_full_scale_height, t2_half_window_height, uart_str_full_scale_half_window,
    (height_range_and_response_length (fun _ => calc_pressure 4095 0)
      (fun i => if i.val < 10 then calc_pressure 2048 7 else 0)
      (fun _ => Or.inr ⟨4095, 0, by decide, rfl⟩)
      (fun i => if h : i.val < 10 then Or.inr ⟨2048, 7, by decide, if_pos h⟩
        else Or.inl (if_neg h))).2.2.2.2.2.2.2.2.1
      ⟨fun _ => calc_pressure 4095 0, 3⟩ 4095 0 (by decide)
      (Function.update_eq_self_iff.mpr rfl),
    (height_range_and_response_length (fun _ => calc_pressure 4095 0)
      (fun i => if i.val < 10 then calc_pressure 2048 7 else 0)
      (fun _ => Or.inr ⟨4095, 0, by decide, rfl⟩)
      (fun i => if h : i.val < 10 then Or.inr ⟨2048, 7, by decide, if_pos h⟩
        else Or.inl (if_neg h))).1,
    (height_range_and_response_length (fun _ => calc_pressure 4095 0)
      (fun i => if i.val < 10 then calc_pressure 2048 7 else 0)
      (fun _ => Or.inr ⟨4095, 0, by decide, rfl⟩)
      (fun i => if h : i.val < 10 then Or.inr ⟨2048, 7, by decide, if_pos h⟩
        else Or.inl (if_neg h))).2.1,
    (height_range_and_response_length (fun _ => calc_pressure 4095 0)
      (fun i => if i.val < 10 then calc_pressure 2048 7 else 0)
      (fun _ => Or.inr ⟨4095, 0, by decide, rfl⟩)
      (fun i => if h : i.val < 10 then Or.inr ⟨2048, 7, by decide, if_pos h⟩
        else Or.inl (if_neg h))).2.2.1,
    (height_range_and_response_length (fun _ => calc_pressure 4095 0)
      (fun i => if i.val < 10 then calc_pressure 2048 7 else 0)
      (fun _ => Or.inr ⟨4095, 0, by decide, rfl⟩)
      (fun i => if h : i.val < 10 then Or.inr ⟨2048, 7, by decide, if_pos h⟩
        else Or.inl (if_neg h))).2.2.2.1,
    (height_range_and_response_length (fun _ => calc_pressure 4095 0)
      (fun i => if i.val < 10 then calc_pressure 2048 7 else 0)
      (fun _ => Or.inr ⟨4095, 0, by decide, rfl⟩)
      (fun i => if h : i.val < 10 then Or.inr ⟨2048, 7, by decide, if_pos h⟩
        else Or.inl (if_neg h))).2.2.2.2.1,
    (height_range_and_response_length (fun _ => calc_pressure 4095 0)
      (fun i => if i.val < 10 then calc_pressure 2048 7 else 0)
      (fun _ => Or.inr ⟨4095, 0, by decide, rfl⟩)
      (fun i => if h : i.val < 10 then Or.inr ⟨2048, 7, by decide, if_pos h⟩
        else Or.inl (if_neg h))).2.2.2.2.2.1,
    (height_range_and_response_length (fun _ => calc_pressure 4095 0)
      (fun i => if i.val < 10 then calc_pressure 2048 7 else 0)
      (fun _ => Or.inr ⟨4095, 0, by decide, rfl⟩)
      (fun i => if h : i.val < 10 then Or.inr ⟨2048, 7, by decide, if_pos h⟩
        else Or.inl (if_neg h))).2.2.2.2.2.2.1⟩

/-- Pins after the first block of a poll pass, for any semaphore state. -/
theorem fillStage_pins (tank : TankId) (w : World) (f d : Bool)
    (hf : w.gpio tank.fill_pin = f) (hd : w.gpio tank.drain_pin = d) :
    (fillStage tank w f d).1.gpio tank.fill_pin = (fillStage tank w f d).2 ∧
    (fillStage tank w f d).1.gpio tank.drain_pin = d := by
  cases tank <;> cases f <;>
    simp only [fillStage, TankId.fill_sem, TankId.stop_fill_sem, TankId.fill_pin,
      TankId.drain_pin, GPIO14, GPIO15, GPIO16, GPIO17] at hf hd ⊢
  · rcases h : w.sem .fill_t1_sem with _ | b | _
    · simp [h, hf, hd]
    · cases b <;> simp [xSemaphoreTake, h, hf, hd, handle_ctrl_pins, handle_t1_ctrl_pins,
        gpio_put, GPIO14, GPIO15]
    · simp [xSemaphoreTake, h, hf, hd]
  · rcases h : w.sem .stop_fill_t1_sem with _ | b | _
    · simp [h, hf, hd]
    · cases b <;> simp [xSemaphoreTake, h, hf, hd, handle_ctrl_pins, handle_t1_ctrl_pins,
        gpio_put, GPIO14, GPIO15]
    · simp [xSemaphoreTake, h, hf, hd]
  · rcases h : w.sem .fill_t2_sem with _ | b | _
    · simp [h, hf, hd]
    · cases b <;> simp [xSemaphoreTake, h, hf, hd, handle_ctrl_pins, handle_t2_ctrl_pins,
        gpio_put, GPIO16, GPIO17]
    · simp [xSemaphoreTake, h, hf, hd]
  · rcases h : w.sem .stop_fill_t2_sem with _ | b | _
    · simp [h, hf, hd]
    · cases b <;> simp [xSemaphoreTake, h, hf, hd, handle_ctrl_pins, handle_t2_ctrl_pins,
        gpio_put, GPIO16, GPIO17]
    · simp [xSemaphoreTake, h, hf, hd]

/-- Pins after the second block of a poll pass, for any semaphore state. -/
theorem drainStage_pins (tank : TankId) (w : World) (f d : Bool)
    (hf : w.gpio tank.fill_pin = f) (hd : w.gpio tank.drain_pin = d) :
    (drainStage tank w f d).1.gpio tank.fill_pin = f ∧
    (drainStage tank w f d).1.gpio tank.drain_pin = (drainStage tank w f d).2 := by
  cases tank <;> cases d <;>
    simp only [drainStage, TankId.drain_sem, TankId.stop_drain_sem, TankId.fill_pin,
      TankId.drain_pin, GPIO14, GPIO15, GPIO16, GPIO17] at hf hd ⊢
  · rcases h : w.sem .drain_t1_sem with _ | b | _
    · simp [h, hf, hd]
    · cases b <;> simp [xSemaphoreTake, h, hf, hd, handle_ctrl_pins, handle_t1_ctrl_pins,
        gpio_put, GPIO14, GPIO15]
    · simp [xSemaphoreTake, h, hf, hd]
  · rcases h : w.sem .stop_drain_t1_sem with _ | b | _
    · simp [h, hf, hd]
    · cases b <;> simp [xSemaphoreTake, h, hf, hd, handle_ctrl_pins, handle_t1_ctrl_pins,
        gpio_put, GPIO14, GPIO15]
    · simp [xSemaphoreTake, h, hf, hd]
  · rcases h : w.sem .drain_t2_sem with _ | b | _
    · simp [h, hf, hd]
    · cases b <;> simp [xSemaphoreTake, h, hf, hd, handle_ctrl_pins, handle_t2_ctrl_pins,
        gpio_put, GPIO16, GPIO17]
    · simp [xSemaphoreTake, h, hf, hd]
  · rcases h : w.sem .stop_drain_t2_sem with _ | b | _
    · simp [h, hf, hd]
    · cases b <;> simp [xSemaphoreTake, h, hf, hd, handle_ctrl_pins, handle_t2_ctrl_pins,
        gpio_put, GPIO16, GPIO17]
    · simp [xSemaphoreTake, h, hf, hd]

/-- Pins after the third block of a poll pass, for any semaphore state. -/
theorem deleteStage_pins (tank : TankId) (w : World) (f d : Bool)
    (hf : w.gpio tank.fill_pin = f) (hd : w.gpio tank.drain_pin = d) :
    pinsFollowFlags tank (deleteStage tank w f d) := by
  cases tank <;>
    simp only [pinsFollowFlags, deleteStage, TankId.delete_sem, TankId.fill_pin,
      TankId.drain_pin, GPIO14, GPIO15, GPIO16, GPIO17] at hf hd ⊢
  · rcases h : w.sem .delete_t1_ctrl_sem with _ | b | _
    · simp [h, hf, hd]
    · cases b <;> simp [xSemaphoreTake, h, hf, hd, deinit_level_ctrl_task,
        deinit_t1_level_ctrl_task, vSemaphoreDelete, vTaskDelete, handle_t1_ctrl_pins,
        gpio_put, GPIO14, GPIO15]
    · simp [xSemaphoreTake, h, hf, hd]
  · rcases h : w.sem .delete_t2_ctrl_sem with _ | b | _
    · simp [h, hf, hd]
    · cases b <;> simp [xSemaphoreTake, h, hf, hd, deinit_level_ctrl_task,
        deinit_t2_level_ctrl_task, vSemaphoreDelete, vTaskDelete, handle_t2_ctrl_pins,
        gpio_put, GPIO16, GPIO17]
    · simp [xSemaphoreTake, h, hf, hd]

/-- One poll pass keeps the outputs in step with the flags, whatever the semaphores hold. -/
theorem level_ctrl_task_cycle_pins (tank : TankId) (w : World) (t : CtrlTask)
    (h : pinsFollowFlags tank (w, t)) :
    pinsFollowFlags tank (level_ctrl_task_cycle tank w t) := by
  obtain ⟨f, d, del⟩ := t
  cases del
  · rw [level_ctrl_task_cycle_stages]
    simp only [pinsFollowFlags, Bool.false_eq_true, if_false] at h
    obtain ⟨a1, a2⟩ := fillStage_pins tank w f d h.1 h.2
    obtain ⟨b1, b2⟩ := drainStage_pins tank _ _ d a1 a2
    exact deleteStage_pins tank _ _ _ b1 b2
  · rw [level_ctrl_task_cycle_deleted tank w ⟨f, d, true⟩ rfl]
    exact h

/-- The invariant along a whole run. -/
theorem ctrlRun_pins (tank : TankId) (env : List (Sem → SemaphoreHandle_t))
    (s : World × CtrlTask) (h : pinsFollowFlags tank s) :
    pinsFollowFlags tank (ctrlRun tank s env) := by
  induction env generalizing s with
  | nil => exact h
  | cons sems rest ih =>
    simp only [ctrlRun]
    apply ih
    apply level_ctrl_task_cycle_pins
    exact h

end TankCtrl
